import Mathlib

/-!
Shallow embedding of the `go.rs` compiler backend (the crate under
`src/compiler`): the typed AST (`ast.rs`), the LLVM-IR generation engine
(`codegen.rs`) and the subprocess handling of the AOT driver (`lib.rs`).

The inkwell/LLVM builder API is modelled by an explicit state: a list of
basic blocks (each a list of emitted instructions), a build cursor (the
block the builder is positioned at), fresh-id counters for SSA registers
and blocks, the module's function declarations, the symbol table and the
`current_function` register of the `CodeGen` struct.  Machine values are
modelled by their LLVM type (integer width / float width / pointer) plus
either a constant payload or an SSA register id.  Floating-point literal
payloads are kept as their source text: no claim depends on IEEE values.
-/

namespace GoRs

/-- The Go types supported by the compiler (`ast.rs`, `enum Type`). -/
inductive Ty where
  | int
  | bool
  | float32
  | float64
  | goString
deriving DecidableEq, Repr

/-- Binary operators (`ast.rs`, `enum BinaryOp`).  `ge`/`le` are the strict
comparisons `>`/`<`; `geq`/`leq` are `>=`/`<=`, as in the source. -/
inductive BinaryOp where
  | add
  | sub
  | mul
  | div
  | eq
  | neq
  | ge
  | le
  | geq
  | leq
deriving DecidableEq, Repr

/-- Expressions (`ast.rs`, `enum Expression`).  Every node carries its
resolved type; a `call` carries `none` exactly for void callees. -/
inductive Expression where
  | name (exprType : Ty) (nm : String)
  | literal (exprType : Ty) (value : String)
  | binaryOp (exprType : Ty) (op : BinaryOp) (left right : Expression)
  | call (exprType : Option Ty) (func : String) (args : List Expression)
deriving Repr

/-- Statements (`ast.rs`, `enum Statement`). -/
inductive Statement where
  | assignment (nm : String) (varType : Ty) (expr : Expression)
  | ifStmt (cond : Expression) (thenBlock elseBlock : List Statement)
  | ret (expr : Expression)
  | expression (expr : Expression)
deriving Repr

/-- A function definition (`ast.rs`, `struct FuncDef`).  `returnType = none`
means the function is void. -/
structure FuncDef where
  name : String
  params : List (String × Ty)
  returnType : Option Ty
  code : List Statement
deriving Repr

/-- A whole package (`ast.rs`, `struct Program`). -/
structure Program where
  packageName : String
  imports : List String
  functions : List FuncDef
deriving Repr

/-- `Expression::get_type` (`ast.rs`): returns the type tag; on a void
`Call` the Rust code panics (`expect`), modelled by `none`. -/
def Expression.getType : Expression → Option Ty
  | .name t _ => some t
  | .literal t _ => some t
  | .binaryOp t _ _ _ => some t
  | .call t _ _ => t

/-- The LLVM types the compiler uses: `iN`, float of width 32/64, and
pointers (`Type::to_llvm` produces `i64`, `i1`, `f32`, `f64`, `i8*`). -/
inductive LLVMTy where
  | int (w : Nat)
  | float (w : Nat)
  | ptr (pointee : LLVMTy)
deriving DecidableEq, Repr

/-- `Type::to_llvm` (`ast.rs`). -/
def Ty.toLLVM : Ty → LLVMTy
  | .int => .int 64
  | .bool => .int 1
  | .float32 => .float 32
  | .float64 => .float 64
  | .goString => .ptr (.int 8)

/-- A machine value (inkwell `BasicValueEnum`): an integer constant, a float
constant (payload kept as source text), an SSA register of a given type, or
the `idx`-th formal argument of function `fn` (`FunctionValue::get_param_iter`). -/
inductive Value where
  | const (ty : LLVMTy) (n : Int)
  | constFloat (w : Nat) (text : String)
  | reg (ty : LLVMTy) (id : Nat)
  | arg (ty : LLVMTy) (fn : String) (idx : Nat)
deriving DecidableEq, Repr

/-- The LLVM type of a value. -/
def Value.ty : Value → LLVMTy
  | .const t _ => t
  | .constFloat w _ => .float w
  | .reg t _ => t
  | .arg t _ _ => t

/-- Whether a value is an `IntValue` in the `BasicValueEnum` sense. -/
def Value.isIntValue (v : Value) : Bool :=
  match v.ty with
  | .int _ => true
  | _ => false

/-- Whether a value is a `FloatValue` in the `BasicValueEnum` sense. -/
def Value.isFloatValue (v : Value) : Bool :=
  match v.ty with
  | .float _ => true
  | _ => false

/-- Integer comparison predicates used by the generator (inkwell
`IntPredicate`). -/
inductive IntPred where
  | eq
  | ne
  | sgt
  | slt
  | sge
  | sle
deriving DecidableEq, Repr

/-- Floating comparison predicates used by the generator (inkwell
`FloatPredicate`, all ordered). -/
inductive FloatPred where
  | oeq
  | one
  | ogt
  | olt
  | oge
  | ole
deriving DecidableEq, Repr

/-- The instructions the generator emits, in builder order.  `globalStr`
records `build_global_string_ptr` (a global plus a pointer result). -/
inductive Instr where
  | alloca (id : Nat) (ty : LLVMTy) (nm : String)
  | store (ptr : Value) (v : Value)
  | load (id : Nat) (ptr : Value) (nm : String)
  | intAdd (id : Nat) (l r : Value) (nm : String)
  | intSub (id : Nat) (l r : Value) (nm : String)
  | intMul (id : Nat) (l r : Value) (nm : String)
  | intSDiv (id : Nat) (l r : Value) (nm : String)
  | icmp (pred : IntPred) (id : Nat) (l r : Value) (nm : String)
  | floatAdd (id : Nat) (l r : Value) (nm : String)
  | floatSub (id : Nat) (l r : Value) (nm : String)
  | floatMul (id : Nat) (l r : Value) (nm : String)
  | floatDiv (id : Nat) (l r : Value) (nm : String)
  | fcmp (pred : FloatPred) (id : Nat) (l r : Value) (nm : String)
  | globalStr (id : Nat) (content : String) (nm : String)
  | callInstr (id : Nat) (fn : String) (args : List Value) (nm : String)
  | condBr (cond : Value) (thenBB elseBB : Nat)
  | br (dest : Nat)
  | retVal (v : Value)
  | retVoid
  | unreachable
deriving DecidableEq, Repr

/-- The LLVM signature a module function was declared/added with. -/
structure FnSig where
  paramTys : List LLVMTy
  retTy : Option LLVMTy
deriving DecidableEq, Repr

/-- A basic block: its id, owning function, name and emitted instructions. -/
structure BBlock where
  id : Nat
  fn : String
  nm : String
  instrs : List Instr
deriving DecidableEq, Repr

/-- The generation state: the module's functions, all basic blocks created
so far (in creation order), the builder cursor (id of the block the builder
is positioned at), fresh counters, the symbol table (name to the alloca
pointer backing it; an insert prepends, a lookup takes the most recent
binding, matching `HashMap` insert/overwrite observably), and the
`current_function` field of `CodeGen`. -/
structure S where
  moduleFns : List (String × FnSig)
  blocks : List BBlock
  cursor : Nat
  nextReg : Nat
  nextBlock : Nat
  symtab : List (String × Value)
  currentFunction : Option String
deriving DecidableEq, Repr

/-- `CodeGen::new`: empty module, empty symbol table, no current function.
The builder starts unpositioned; cursor 0 is never a real block (real block
ids start at 1), so emitting before the first `position_at_end` would be
dropped, as nothing meaningful can be emitted there in the source either. -/
def initState : S :=
  { moduleFns := []
    blocks := []
    cursor := 0
    nextReg := 1
    nextBlock := 1
    symtab := []
    currentFunction := none }

/-- `Module::get_function`: look a function up by name. -/
def S.getFunction (g : S) (nm : String) : Option FnSig :=
  (g.moduleFns.find? (fun p => p.1 == nm)).map (·.2)

/-- `Module::add_function`: declare/define a function in the module. -/
def S.addFunction (g : S) (nm : String) (sig : FnSig) : S :=
  { g with moduleFns := g.moduleFns ++ [(nm, sig)] }

/-- `Context::append_basic_block`: create a fresh empty block owned by
function `fn`, returning its id. -/
def S.appendBasicBlock (g : S) (fn nm : String) : Nat × S :=
  (g.nextBlock,
   { g with
      blocks := g.blocks ++ [{ id := g.nextBlock, fn := fn, nm := nm, instrs := [] }]
      nextBlock := g.nextBlock + 1 })

/-- `Builder::position_at_end`: move the cursor to block `b`. -/
def S.position (g : S) (b : Nat) : S :=
  { g with cursor := b }

/-- Draw a fresh SSA register id. -/
def S.freshReg (g : S) : Nat × S :=
  (g.nextReg, { g with nextReg := g.nextReg + 1 })

/-- Append an instruction to the block the builder is positioned at. -/
def S.emit (g : S) (i : Instr) : S :=
  { g with
     blocks := g.blocks.map (fun b =>
       if b.id = g.cursor then { b with instrs := b.instrs ++ [i] } else b) }

/-- Look a block up by id (first match, ids are created fresh). -/
def S.getBlock (g : S) (b : Nat) : Option BBlock :=
  g.blocks.find? (fun blk => blk.id == b)

/-- Errors: `err` is a Rust `Result::Err(&'static str)` as returned by the
generator; `panicked` is a Rust `panic!`/`unwrap` abort. -/
inductive GenErr where
  | err (msg : String)
  | panicked (msg : String)
deriving DecidableEq, Repr

deriving instance DecidableEq for Except

/-- `gen_var_ref`'s error string (the spec's UndefinedVariable condition). -/
def ERR_UNDEFINED_VAR : String :=
  "reference to undefined variable (should have been caught by semantic checker)"

/-- `gen_binop`'s mixed-float error string (the spec's TypeMismatch
condition). -/
def ERR_TYPE_MISMATCH : String :=
  "cannot perform binary operation on float32 and float64 (should have been caught by the type checker)"

/-- `gen_binop`'s fall-through error string (the spec's UnsupportedOperation
condition). -/
def ERR_UNSUPPORTED_OPERATION : String :=
  "binary operations on unsupported types (should have been caught by the type checker)"

/-- `gen_call`'s error string (the spec's UndefinedFunction condition). -/
def ERR_UNDEFINED_FUNCTION : String :=
  "undefined function passed to codegen (should have been caught by semantic checker)"

/-- Modelled from the spec: the constant `ERR_DIV_BY_ZERO` comes from the
crate's `errors` module (`use crate::errors::*`), whose file is not present
under `src/`; the spec fixes the runtime diagnostic as a fixed
"division by zero" message. -/
def ERR_DIV_BY_ZERO : String := "division by zero"

end GoRs

namespace GoRs

/-- Decimal digit-string parser backing the Rust `str::parse` calls:
`none` on an empty or non-digit string. -/
def parseDigits? : List Char → Option Nat
  | [] => none
  | cs =>
    if cs.all Char.isDigit then
      some (cs.foldl (fun a c => a * 10 + (c.toNat - 48)) 0)
    else none

/-- `value.parse::<i64>()`: optional sign, decimal digits, 64-bit signed
range check. -/
def parseI64 (s : String) : Option Int :=
  match s.toList with
  | '-' :: rest =>
    (parseDigits? rest).bind (fun n => if n ≤ 2 ^ 63 then some (-(n : Int)) else none)
  | '+' :: rest =>
    (parseDigits? rest).bind (fun n => if n < 2 ^ 63 then some (n : Int) else none)
  | cs =>
    (parseDigits? cs).bind (fun n => if n < 2 ^ 63 then some (n : Int) else none)

/-- `value.parse::<u64>()`: optional `+`, decimal digits, 64-bit unsigned
range check (no minus sign for an unsigned parse). -/
def parseU64 (s : String) : Option Int :=
  match s.toList with
  | '+' :: rest =>
    (parseDigits? rest).bind (fun n => if n < 2 ^ 64 then some (n : Int) else none)
  | cs =>
    (parseDigits? cs).bind (fun n => if n < 2 ^ 64 then some (n : Int) else none)

/-- `gen_var_ref` (`codegen.rs`): look the name up in the symbol table and
load from its storage; `Err` on an unbound name.  The loaded value's type is
the pointee type of the stored alloca pointer. -/
def genVarRef (g : S) (nm : String) : Except GenErr (Value × S) :=
  match g.symtab.find? (fun p => p.1 == nm) with
  | some (_, ptrVal) =>
    let loadedTy := match ptrVal.ty with
      | .ptr t => t
      | t => t
    let (id, g1) := g.freshReg
    .ok (Value.reg loadedTy id, g1.emit (.load id ptrVal nm))
  | none => .error (.err ERR_UNDEFINED_VAR)

/-- `gen_literal` (`codegen.rs`): lower a literal according to its declared
type.  Int/Bool text is parsed (a parse failure is a Rust `unwrap` panic);
float text is kept symbolic (its IEEE value is never inspected by any claim);
a string literal unescapes `\n` and materializes a global string pointer. -/
def genLiteral (g : S) (exprType : Ty) (value : String) : Except GenErr (Value × S) :=
  match exprType with
  | .int =>
    match parseI64 value with
    | some n => .ok (Value.const (.int 64) n, g)
    | none => .error (.panicked "called Result::unwrap() on an Err value")
  | .float32 => .ok (Value.constFloat 32 value, g)
  | .float64 => .ok (Value.constFloat 64 value, g)
  | .bool =>
    match parseU64 value with
    | some n => .ok (Value.const (.int 1) n, g)
    | none => .error (.panicked "called Result::unwrap() on an Err value")
  | .goString =>
    let (id, g1) := g.freshReg
    .ok (Value.reg (.ptr (.int 8)) id,
         g1.emit (.globalStr id (value.replace "\\n" "\n") "str"))

/-- The dispatch of `gen_binop` (`codegen.rs`) once both operand values have
been generated: it matches on the operand value kind pair (IntValue/IntValue,
FloatValue/FloatValue, anything else), exactly as the source's `match
(left_gen, right_gen)`.  The float arm re-checks the static type tags of the
operand expressions (`left.get_type() != right.get_type()`). -/
def genBinopVals (g : S) (op : BinaryOp) (left right : Expression) (lv rv : Value) :
    Except GenErr (Value × S) :=
  match lv.ty, rv.ty with
  | .int _, .int _ =>
    match op with
    | .add =>
      let (id, g1) := g.freshReg
      .ok (Value.reg lv.ty id, g1.emit (.intAdd id lv rv "addtmp"))
    | .sub =>
      let (id, g1) := g.freshReg
      .ok (Value.reg lv.ty id, g1.emit (.intSub id lv rv "subtmp"))
    | .mul =>
      let (id, g1) := g.freshReg
      .ok (Value.reg lv.ty id, g1.emit (.intMul id lv rv "multmp"))
    | .div =>
      let (cid, g1) := g.freshReg
      let g2 := g1.emit (.icmp .ne cid rv (Value.const (.int 64) 0) "is_not_div_by_zero")
      match g2.currentFunction with
      | none => .error (.panicked "called Option::unwrap() on a None value")
      | some parent =>
        let (panicBB, g3) := g2.appendBasicBlock parent "panic_bb"
        let (contBB, g4) := g3.appendBasicBlock parent "cont_bb"
        let g5 := g4.emit (.condBr (Value.reg (.int 1) cid) contBB panicBB)
        let g6 := g5.position panicBB
        let (sid, g7) := g6.freshReg
        let g8 := g7.emit (.globalStr sid ERR_DIV_BY_ZERO "div_by_zero")
        match g8.getFunction "__gopanic" with
        | none => .error (.panicked "called Option::unwrap() on a None value")
        | some _ =>
          let (pid, g9) := g8.freshReg
          let g10 := g9.emit (.callInstr pid "__gopanic" [Value.reg (.ptr (.int 8)) sid] "panic")
          let g11 := g10.emit .unreachable
          let g12 := g11.position contBB
          let (did, g13) := g12.freshReg
          .ok (Value.reg lv.ty did, g13.emit (.intSDiv did lv rv "divtmp"))
    | .eq =>
      let (id, g1) := g.freshReg
      .ok (Value.reg (.int 1) id, g1.emit (.icmp .eq id lv rv "eqtmp"))
    | .neq =>
      let (id, g1) := g.freshReg
      .ok (Value.reg (.int 1) id, g1.emit (.icmp .ne id lv rv "neqtmp"))
    | .ge =>
      let (id, g1) := g.freshReg
      .ok (Value.reg (.int 1) id, g1.emit (.icmp .sgt id lv rv "getmp"))
    | .le =>
      let (id, g1) := g.freshReg
      .ok (Value.reg (.int 1) id, g1.emit (.icmp .slt id lv rv "letmp"))
    | .geq =>
      let (id, g1) := g.freshReg
      .ok (Value.reg (.int 1) id, g1.emit (.icmp .sge id lv rv "geqtmp"))
    | .leq =>
      let (id, g1) := g.freshReg
      .ok (Value.reg (.int 1) id, g1.emit (.icmp .sle id lv rv "leqtmp"))
  | .float _, .float _ =>
    match left.getType, right.getType with
    | some t1, some t2 =>
      if t1 ≠ t2 then
        .error (.err ERR_TYPE_MISMATCH)
      else
        match op with
        | .add =>
          let (id, g1) := g.freshReg
          .ok (Value.reg lv.ty id, g1.emit (.floatAdd id lv rv "addtmp"))
        | .sub =>
          let (id, g1) := g.freshReg
          .ok (Value.reg lv.ty id, g1.emit (.floatSub id lv rv "subtmp"))
        | .mul =>
          let (id, g1) := g.freshReg
          .ok (Value.reg lv.ty id, g1.emit (.floatMul id lv rv "multmp"))
        | .div =>
          let (id, g1) := g.freshReg
          .ok (Value.reg lv.ty id, g1.emit (.floatDiv id lv rv "divtmp"))
        | .eq =>
          let (id, g1) := g.freshReg
          .ok (Value.reg (.int 1) id, g1.emit (.fcmp .oeq id lv rv "eqtmp"))
        | .neq =>
          let (id, g1) := g.freshReg
          .ok (Value.reg (.int 1) id, g1.emit (.fcmp .one id lv rv "neqtmp"))
        | .ge =>
          let (id, g1) := g.freshReg
          .ok (Value.reg (.int 1) id, g1.emit (.fcmp .ogt id lv rv "getmp"))
        | .le =>
          let (id, g1) := g.freshReg
          .ok (Value.reg (.int 1) id, g1.emit (.fcmp .olt id lv rv "letmp"))
        | .geq =>
          let (id, g1) := g.freshReg
          .ok (Value.reg (.int 1) id, g1.emit (.fcmp .oge id lv rv "geqtmp"))
        | .leq =>
          let (id, g1) := g.freshReg
          .ok (Value.reg (.int 1) id, g1.emit (.fcmp .ole id lv rv "leqtmp"))
    | _, _ =>
      .error (.panicked "Expression::get_type() should not be called on a void function")
  | _, _ => .error (.err ERR_UNSUPPORTED_OPERATION)

mutual

/-- `gen_expr` (`codegen.rs`): generate a value for an expression.  The
`binaryOp` arm inlines `gen_binop` (operand generation followed by the
`genBinopVals` dispatch) and the `call` arm inlines `gen_call`; the
standalone wrappers `genBinop`/`genCall` below are proved equal to these
arms. -/
def genExpr (g : S) : Expression → Except GenErr (Value × S)
  | .literal t v => genLiteral g t v
  | .name _ nm => genVarRef g nm
  | .binaryOp _ op l r => do
    let (lv, g1) ← genExpr g l
    let (rv, g2) ← genExpr g1 r
    genBinopVals g2 op l r lv rv
  | .call _ f args =>
    match g.getFunction f with
    | none => .error (.err ERR_UNDEFINED_FUNCTION)
    | some sig => do
      let (vs, g1) ← genArgs g args
      let (id, g2) := g1.freshReg
      let g3 := g2.emit (.callInstr id f vs "calltmp")
      match sig.retTy with
      | some t => .ok (Value.reg t id, g3)
      | none => .ok (Value.const (.int 1) 1, g3)

/-- The argument loop of `gen_call`: generate each argument expression in
left-to-right order, threading the state. -/
def genArgs (g : S) : List Expression → Except GenErr (List Value × S)
  | [] => .ok ([], g)
  | a :: rest => do
    let (v, g1) ← genExpr g a
    let (vs, g2) ← genArgs g1 rest
    .ok (v :: vs, g2)

end

/-- `gen_binop` (`codegen.rs`): generate both operands, then dispatch on the
operand value kind pair. -/
def genBinop (g : S) (op : BinaryOp) (left right : Expression) :
    Except GenErr (Value × S) := do
  let (lv, g1) ← genExpr g left
  let (rv, g2) ← genExpr g1 right
  genBinopVals g2 op left right lv rv

/-- `gen_call` (`codegen.rs`): resolve the callee in the module (`Err` if
absent), generate the arguments left to right, emit the call; a void callee
yields the fixed `i1 1` sentinel (`bool_type().const_int(1, true)`). -/
def genCall (g : S) (func : String) (args : List Expression) :
    Except GenErr (Value × S) :=
  match g.getFunction func with
  | none => .error (.err ERR_UNDEFINED_FUNCTION)
  | some sig => do
    let (vs, g1) ← genArgs g args
    let (id, g2) := g1.freshReg
    let g3 := g2.emit (.callInstr id func vs "calltmp")
    match sig.retTy with
    | some t => .ok (Value.reg t id, g3)
    | none => .ok (Value.const (.int 1) 1, g3)





end GoRs

namespace GoRs

mutual

/-- `gen_statement` (`codegen.rs`).  The `ifStmt` arm inlines `gen_if`; the
standalone `genIf` below is proved equal to it. -/
def genStatement (g : S) : Statement → Except GenErr S
  | .assignment nm varType expr => do
    let (rhs, g1) ← genExpr g expr
    let (aid, g2) := g1.freshReg
    let g3 := g2.emit (.alloca aid varType.toLLVM nm)
    let g4 := g3.emit (.store (Value.reg (.ptr varType.toLLVM) aid) rhs)
    .ok { g4 with symtab := (nm, Value.reg (.ptr varType.toLLVM) aid) :: g4.symtab }
  | .ret expr => do
    let (v, g1) ← genExpr g expr
    .ok (g1.emit (.retVal v))
  | .expression expr => do
    let (_, g1) ← genExpr g expr
    .ok g1
  | .ifStmt cond thenB elseB =>
    match g.currentFunction with
    | none => .error (.panicked "called Option::unwrap() on a None value")
    | some parent => do
      let (cv, g1) ← genExpr g cond
      match cv.ty with
      | .int _ =>
        let (thenBB, g2) := g1.appendBasicBlock parent "then_bb"
        let (elseBB, g3) := g2.appendBasicBlock parent "else_bb"
        let (contBB, g4) := g3.appendBasicBlock parent "cont_bb"
        let g5 := g4.emit (.condBr cv thenBB elseBB)
        let g6 ← genBlock (g5.position thenBB) thenB
        let g7 := g6.emit (.br contBB)
        let g8 ← genBlock (g7.position elseBB) elseB
        let g9 := g8.emit (.br contBB)
        .ok (g9.position contBB)
      | _ => .error (.panicked "Found IntValue but type is not an IntValue")

/-- `gen_block` (`codegen.rs`): generate each statement in order. -/
def genBlock (g : S) : List Statement → Except GenErr S
  | [] => .ok g
  | s :: rest => do
    let g1 ← genStatement g s
    genBlock g1 rest

end

/-- `gen_if` (`codegen.rs`): unwrap the current function, generate the
condition (`into_int_value` panics on a non-integer value), create the
then/else/continuation blocks, emit the conditional branch, generate each
branch block followed by an unconditional branch to the continuation, and
leave the cursor at the continuation block. -/
def genIf (g : S) (cond : Expression) (thenB elseB : List Statement) :
    Except GenErr S :=
  match g.currentFunction with
  | none => .error (.panicked "called Option::unwrap() on a None value")
  | some parent => do
    let (cv, g1) ← genExpr g cond
    match cv.ty with
    | .int _ =>
      let (thenBB, g2) := g1.appendBasicBlock parent "then_bb"
      let (elseBB, g3) := g2.appendBasicBlock parent "else_bb"
      let (contBB, g4) := g3.appendBasicBlock parent "cont_bb"
      let g5 := g4.emit (.condBr cv thenBB elseBB)
      let g6 ← genBlock (g5.position thenBB) thenB
      let g7 := g6.emit (.br contBB)
      let g8 ← genBlock (g7.position elseBB) elseB
      let g9 := g8.emit (.br contBB)
      .ok (g9.position contBB)
    | _ => .error (.panicked "Found IntValue but type is not an IntValue")



/-- The parameter loop of `gen_function` (`codegen.rs`): for the `i`-th
parameter, allocate stack storage (the alloca is named after the *function*,
`name` in the Rust source, not the parameter), store the formal argument into
it, and insert the parameter name into the symbol table. -/
def bindParams (fname : String) : S → Nat → List (String × Ty) → S
  | g, _, [] => g
  | g, i, (pname, pty) :: rest =>
    let (aid, g1) := g.freshReg
    let g2 := g1.emit (.alloca aid pty.toLLVM fname)
    let g3 := g2.emit (.store (Value.reg (.ptr pty.toLLVM) aid) (Value.arg pty.toLLVM fname i))
    let g4 := { g3 with symtab := (pname, Value.reg (.ptr pty.toLLVM) aid) :: g3.symtab }
    bindParams fname g4 (i + 1) rest

/-- `gen_function` (`codegen.rs`): add the function to the module with its
LLVM signature (void when `returnType` is absent), create and enter the entry
block, set `current_function`, bind the parameters, generate the body, and —
whenever the declared return type is absent — emit a no-value return. -/
def genFunction (g : S) (func : FuncDef) : Except GenErr S :=
  let sig : FnSig :=
    { paramTys := func.params.map (fun p => p.2.toLLVM)
      retTy := func.returnType.map Ty.toLLVM }
  let g1 := g.addFunction func.name sig
  let (entry, g2) := g1.appendBasicBlock func.name "entry"
  let g3 := { g2.position entry with currentFunction := some func.name }
  let g4 := bindParams func.name g3 0 func.params
  do
    let g5 ← genBlock g4 func.code
    if func.returnType.isNone then
      .ok (g5.emit .retVoid)
    else
      .ok g5

/-- The loop of `gen_program` (`codegen.rs`): generate each function in list
order, aborting at the first failure. -/
def genFunctions (g : S) : List FuncDef → Except GenErr S
  | [] => .ok g
  | f :: rest => do
    let g1 ← genFunction g f
    genFunctions g1 rest

/-- `gen_program` (`codegen.rs`): loop through all functions of the program
and generate their code. -/
def genProgram (g : S) (program : Program) : Except GenErr S :=
  genFunctions g program.functions

/-- `add_runtime` (`lib.rs`): declare the external runtime functions in the
module, in source order. -/
def addRuntime (g : S) : S :=
  (((((((g.addFunction "__flush_stdout" { paramTys := [], retTy := none }
    ).addFunction "__gopanic" { paramTys := [.ptr (.int 8)], retTy := none }
    ).addFunction "add" { paramTys := [.int 64, .int 64], retTy := some (.int 64) }
    ).addFunction "__print_int" { paramTys := [.int 64], retTy := none }
    ).addFunction "__print_bool" { paramTys := [.int 1], retTy := none }
    ).addFunction "__print_float32" { paramTys := [.float 32], retTy := none }
    ).addFunction "__print_float64" { paramTys := [.float 64], retTy := none }
    ).addFunction "__print_gostring" { paramTys := [.ptr (.int 8)], retTy := none }

/-- The generation phase of `compile_aot` (`lib.rs`): a fresh `CodeGen`, the
runtime declarations, then `gen_program` (whose error the driver turns into a
panic). -/
def compileGen (program : Program) : Except GenErr S :=
  genProgram (addRuntime initState) program

/-- The outcome of `std::process::Command::output()`: either the OS failed to
run the command (`error`), or the subprocess ran and reported an exit status
plus captured output and error streams. -/
structure ProcOutput where
  status : Int
  outData : String
  errData : String
deriving DecidableEq, Repr

/-- How `compile_aot` (`lib.rs`) handles the `cargo build` runtime-archive
step: the `Ok` arm does nothing at all (exit status and stderr are ignored);
only an OS-level spawn failure panics. -/
def handleCompileRuntime : Except String ProcOutput → Except String Unit
  | .ok _ => .ok ()
  | .error e => .error e

/-- How `compile_aot` (`lib.rs`) handles the `gcc` link step: a nonempty
stderr panics (with the trimmed stderr text); the exit status is ignored;
an OS-level spawn failure panics. -/
def handleLinkRuntime : Except String ProcOutput → Except String Unit
  | .ok result =>
    if result.errData ≠ "" then .error result.errData.trim else .ok ()
  | .error e => .error e

end GoRs

namespace GoRs

/-- The block list only carries ids below the fresh-block counter. -/
def blocksFresh (g : S) : Prop := ∀ blk ∈ g.blocks, blk.id < g.nextBlock

instance (g : S) : Decidable (blocksFresh g) :=
  inferInstanceAs (Decidable (∀ blk ∈ g.blocks, blk.id < g.nextBlock))

/-- How one generation step may evolve the builder state, relative to its
entry state: the fresh-block counter only grows; the cursor either stays
where it was or moves to a block created during the step; a cursor lying in
the block-id range keeps doing so; every pre-existing block other than the
entry cursor block is untouched; id-freshness is preserved; and an existing
cursor block keeps existing. -/
def Evolves (g g' : S) : Prop :=
  g.nextBlock ≤ g'.nextBlock ∧
  (g'.cursor = g.cursor ∨ g.nextBlock ≤ g'.cursor) ∧
  (g.cursor < g.nextBlock → g'.cursor < g'.nextBlock) ∧
  (∀ b, b < g.nextBlock → b ≠ g.cursor → g'.getBlock b = g.getBlock b) ∧
  (blocksFresh g → blocksFresh g') ∧
  ((g.getBlock g.cursor).isSome → (g'.getBlock g'.cursor).isSome)

/-- Expression generation leaves the symbol table, the module's function
list and the `current_function` register untouched (it only has `&self` in
the Rust source). -/
def EnvPres (g g' : S) : Prop :=
  g'.symtab = g.symtab ∧ g'.moduleFns = g.moduleFns ∧
    g'.currentFunction = g.currentFunction

/-- The `binaryOp` arm of `genExpr` is exactly `genBinop`. -/
theorem genExpr_binaryOp (g : S) (t : Ty) (op : BinaryOp) (l r : Expression) :
    genExpr g (.binaryOp t op l r) = genBinop g op l r := rfl

/-- The `call` arm of `genExpr` is exactly `genCall`. -/
theorem genExpr_call (g : S) (t : Option Ty) (f : String) (args : List Expression) :
    genExpr g (.call t f args) = genCall g f args := rfl

/-- The `ifStmt` arm of `genStatement` is exactly `genIf`. -/
theorem genStatement_ifStmt (g : S) (cond : Expression) (thenB elseB : List Statement) :
    genStatement g (.ifStmt cond thenB elseB) = genIf g cond thenB elseB := rfl

@[simp] theorem emit_moduleFns (g : S) (i : Instr) : (g.emit i).moduleFns = g.moduleFns := rfl
@[simp] theorem emit_cursor (g : S) (i : Instr) : (g.emit i).cursor = g.cursor := rfl
@[simp] theorem emit_nextReg (g : S) (i : Instr) : (g.emit i).nextReg = g.nextReg := rfl
@[simp] theorem emit_nextBlock (g : S) (i : Instr) : (g.emit i).nextBlock = g.nextBlock := rfl
@[simp] theorem emit_symtab (g : S) (i : Instr) : (g.emit i).symtab = g.symtab := rfl
@[simp] theorem emit_currentFunction (g : S) (i : Instr) :
    (g.emit i).currentFunction = g.currentFunction := rfl
@[simp] theorem emit_getFunction (g : S) (i : Instr) (nm : String) :
    (g.emit i).getFunction nm = g.getFunction nm := rfl

@[simp] theorem position_moduleFns (g : S) (b : Nat) : (g.position b).moduleFns = g.moduleFns := rfl
@[simp] theorem position_blocks (g : S) (b : Nat) : (g.position b).blocks = g.blocks := rfl
@[simp] theorem position_cursor (g : S) (b : Nat) : (g.position b).cursor = b := rfl
@[simp] theorem position_nextReg (g : S) (b : Nat) : (g.position b).nextReg = g.nextReg := rfl
@[simp] theorem position_nextBlock (g : S) (b : Nat) : (g.position b).nextBlock = g.nextBlock := rfl
@[simp] theorem position_symtab (g : S) (b : Nat) : (g.position b).symtab = g.symtab := rfl
@[simp] theorem position_currentFunction (g : S) (b : Nat) :
    (g.position b).currentFunction = g.currentFunction := rfl
@[simp] theorem position_getFunction (g : S) (b : Nat) (nm : String) :
    (g.position b).getFunction nm = g.getFunction nm := rfl
@[simp] theorem position_getBlock (g : S) (b b' : Nat) :
    (g.position b).getBlock b' = g.getBlock b' := rfl

@[simp] theorem freshReg_fst (g : S) : g.freshReg.1 = g.nextReg := rfl
@[simp] theorem freshReg_moduleFns (g : S) : g.freshReg.2.moduleFns = g.moduleFns := rfl
@[simp] theorem freshReg_blocks (g : S) : g.freshReg.2.blocks = g.blocks := rfl
@[simp] theorem freshReg_cursor (g : S) : g.freshReg.2.cursor = g.cursor := rfl
@[simp] theorem freshReg_nextReg (g : S) : g.freshReg.2.nextReg = g.nextReg + 1 := rfl
@[simp] theorem freshReg_nextBlock (g : S) : g.freshReg.2.nextBlock = g.nextBlock := rfl
@[simp] theorem freshReg_symtab (g : S) : g.freshReg.2.symtab = g.symtab := rfl
@[simp] theorem freshReg_currentFunction (g : S) :
    g.freshReg.2.currentFunction = g.currentFunction := rfl
@[simp] theorem freshReg_getFunction (g : S) (nm : String) :
    g.freshReg.2.getFunction nm = g.getFunction nm := rfl
@[simp] theorem freshReg_getBlock (g : S) (b : Nat) :
    g.freshReg.2.getBlock b = g.getBlock b := rfl

@[simp] theorem appendBB_fst (g : S) (fn nm : String) :
    (g.appendBasicBlock fn nm).1 = g.nextBlock := rfl
@[simp] theorem appendBB_moduleFns (g : S) (fn nm : String) :
    (g.appendBasicBlock fn nm).2.moduleFns = g.moduleFns := rfl
@[simp] theorem appendBB_blocks (g : S) (fn nm : String) :
    (g.appendBasicBlock fn nm).2.blocks =
      g.blocks ++ [{ id := g.nextBlock, fn := fn, nm := nm, instrs := [] }] := rfl
@[simp] theorem appendBB_cursor (g : S) (fn nm : String) :
    (g.appendBasicBlock fn nm).2.cursor = g.cursor := rfl
@[simp] theorem appendBB_nextReg (g : S) (fn nm : String) :
    (g.appendBasicBlock fn nm).2.nextReg = g.nextReg := rfl
@[simp] theorem appendBB_nextBlock (g : S) (fn nm : String) :
    (g.appendBasicBlock fn nm).2.nextBlock = g.nextBlock + 1 := rfl
@[simp] theorem appendBB_symtab (g : S) (fn nm : String) :
    (g.appendBasicBlock fn nm).2.symtab = g.symtab := rfl
@[simp] theorem appendBB_currentFunction (g : S) (fn nm : String) :
    (g.appendBasicBlock fn nm).2.currentFunction = g.currentFunction := rfl
@[simp] theorem appendBB_getFunction (g : S) (fn nm lk : String) :
    (g.appendBasicBlock fn nm).2.getFunction lk = g.getFunction lk := rfl

@[simp] theorem addFunction_blocks (g : S) (nm : String) (sig : FnSig) :
    (g.addFunction nm sig).blocks = g.blocks := rfl
@[simp] theorem addFunction_cursor (g : S) (nm : String) (sig : FnSig) :
    (g.addFunction nm sig).cursor = g.cursor := rfl
@[simp] theorem addFunction_nextReg (g : S) (nm : String) (sig : FnSig) :
    (g.addFunction nm sig).nextReg = g.nextReg := rfl
@[simp] theorem addFunction_nextBlock (g : S) (nm : String) (sig : FnSig) :
    (g.addFunction nm sig).nextBlock = g.nextBlock := rfl
@[simp] theorem addFunction_symtab (g : S) (nm : String) (sig : FnSig) :
    (g.addFunction nm sig).symtab = g.symtab := rfl
@[simp] theorem addFunction_currentFunction (g : S) (nm : String) (sig : FnSig) :
    (g.addFunction nm sig).currentFunction = g.currentFunction := rfl
@[simp] theorem addFunction_getBlock (g : S) (nm : String) (sig : FnSig) (b : Nat) :
    (g.addFunction nm sig).getBlock b = g.getBlock b := rfl

/-- A block found by id has that id. -/
theorem getBlock_id {g : S} {b : Nat} {blk : BBlock} (h : g.getBlock b = some blk) :
    blk.id = b := by
  have := List.find?_some h
  simpa using this

/-- A block found by id is in the block list. -/
theorem getBlock_mem {g : S} {b : Nat} {blk : BBlock} (h : g.getBlock b = some blk) :
    blk ∈ g.blocks := List.mem_of_find?_eq_some h

/-- Finding by id commutes with an id-preserving map over the block list. -/
theorem find?_map_id_preserving (f : BBlock → BBlock) (hf : ∀ blk, (f blk).id = blk.id)
    (l : List BBlock) (b : Nat) :
    (l.map f).find? (fun blk => blk.id == b) =
      (l.find? (fun blk => blk.id == b)).map f := by
  induction l with
  | nil => rfl
  | cons hd tl ih =>
    by_cases h : hd.id = b
    · have hb : (hd.id == b) = true := by simpa using h
      simp [List.find?, hf, hb]
    · have hb : (hd.id == b) = false := by simpa using h
      simp [List.find?, hf, hb, ih]

/-- Emitting rewrites a lookup pointwise: the block at the cursor gains the
instruction, the others are unchanged. -/
theorem getBlock_emit (g : S) (i : Instr) (b : Nat) :
    (g.emit i).getBlock b = (g.getBlock b).map
      (fun blk => if blk.id = g.cursor then { blk with instrs := blk.instrs ++ [i] } else blk) := by
  show (g.blocks.map _).find? _ = _
  rw [find?_map_id_preserving]
  · rfl
  · intro blk
    split <;> rfl

/-- Emitting at the cursor appends to the cursor block. -/
theorem getBlock_emit_self (g : S) (i : Instr) :
    (g.emit i).getBlock g.cursor = (g.getBlock g.cursor).map
      (fun blk => { blk with instrs := blk.instrs ++ [i] }) := by
  rw [getBlock_emit]
  cases h : g.getBlock g.cursor with
  | none => rfl
  | some blk => simp [getBlock_id h]

/-- Emitting leaves every other block unchanged. -/
theorem getBlock_emit_ne (g : S) (i : Instr) {b : Nat} (h : b ≠ g.cursor) :
    (g.emit i).getBlock b = g.getBlock b := by
  rw [getBlock_emit]
  cases hb : g.getBlock b with
  | none => rfl
  | some blk => simp [getBlock_id hb, h]

/-- Appending a basic block leaves lookups of other ids unchanged. -/
theorem getBlock_appendBB_ne (g : S) (fn nm : String) {b : Nat} (h : b ≠ g.nextBlock) :
    (g.appendBasicBlock fn nm).2.getBlock b = g.getBlock b := by
  have hnb : (g.nextBlock == b) = false := by simpa using h.symm
  show (g.blocks ++ [_]).find? _ = _
  rw [List.find?_append]
  cases hb : g.blocks.find? (fun blk => blk.id == b) with
  | some blk => simp [S.getBlock, hb, Option.or]
  | none => simp [S.getBlock, hb, Option.or, List.find?, hnb]

/-- Looking up a block that exists is unaffected by an append. -/
theorem getBlock_appendBB_isSome (g : S) (fn nm : String) {b : Nat}
    (h : (g.getBlock b).isSome) :
    (g.appendBasicBlock fn nm).2.getBlock b = g.getBlock b := by
  show (g.blocks ++ [_]).find? _ = _
  rw [List.find?_append]
  cases hb : g.blocks.find? (fun blk => blk.id == b) with
  | some blk => simp [S.getBlock, hb, Option.or]
  | none => simp [S.getBlock, hb] at h

/-- With fresh ids, the newly appended block is found at the new id. -/
theorem getBlock_appendBB_self (g : S) (fn nm : String)
    (h : ∀ blk ∈ g.blocks, blk.id < g.nextBlock) :
    (g.appendBasicBlock fn nm).2.getBlock g.nextBlock =
      some { id := g.nextBlock, fn := fn, nm := nm, instrs := [] } := by
  show (g.blocks ++ [_]).find? _ = _
  rw [List.find?_append]
  cases hb : g.blocks.find? (fun blk => blk.id == g.nextBlock) with
  | some blk =>
    exfalso
    have h1 := List.find?_some hb
    have h2 := List.mem_of_find?_eq_some hb
    exact absurd (by simpa using h1) (Nat.ne_of_lt (h blk h2))
  | none => simp [Option.or, List.find?]

/-- The new block id is always found after an append (possibly shadowed by a
stale block of the same id, but some block is found). -/
theorem getBlock_appendBB_self_isSome (g : S) (fn nm : String) :
    ((g.appendBasicBlock fn nm).2.getBlock g.nextBlock).isSome := by
  show ((g.blocks ++ [_]).find? _).isSome
  rw [List.find?_append]
  cases hb : g.blocks.find? (fun blk => blk.id == g.nextBlock) with
  | some blk => rfl
  | none => simp [Option.or, List.find?]

end GoRs

namespace GoRs





theorem Evolves.refl (g : S) : Evolves g g :=
  ⟨Nat.le_refl _, Or.inl rfl, fun h => h, fun _ _ _ => rfl, fun h => h, fun h => h⟩

theorem Evolves.trans {g1 g2 g3 : S} (h12 : Evolves g1 g2) (h23 : Evolves g2 g3) :
    Evolves g1 g3 := by
  obtain ⟨a12, b12, c12, d12, e12, f12⟩ := h12
  obtain ⟨a23, b23, c23, d23, e23, f23⟩ := h23
  refine ⟨Nat.le_trans a12 a23, ?_, fun h => c23 (c12 h), ?_, fun h => e23 (e12 h), ?_⟩
  · rcases b23 with h | h
    · rw [h]; exact b12
    · exact Or.inr (Nat.le_trans a12 h)
  · intro b hb hbc
    have hb2 : b < g2.nextBlock := Nat.lt_of_lt_of_le hb a12
    have hbc2 : b ≠ g2.cursor := by
      rcases b12 with h | h
      · rw [h]; exact hbc
      · exact Nat.ne_of_lt (Nat.lt_of_lt_of_le hb h)
    rw [d23 b hb2 hbc2, d12 b hb hbc]
  · intro h
    exact f23 (f12 h)

theorem Evolves.emit (g : S) (i : Instr) : Evolves g (g.emit i) := by
  refine ⟨Nat.le_refl _, Or.inl rfl, fun h => h, ?_, ?_, ?_⟩
  · intro b _ hbc
    exact getBlock_emit_ne g i hbc
  · intro h blk hm
    simp only [S.emit, List.mem_map] at hm
    obtain ⟨blk0, hm0, hblk⟩ := hm
    have : blk.id = blk0.id := by subst hblk; split <;> rfl
    rw [emit_nextBlock, this]
    exact h blk0 hm0
  · intro h
    rw [emit_cursor, getBlock_emit_self]
    simpa using h

theorem Evolves.freshReg (g : S) : Evolves g g.freshReg.2 := by
  refine ⟨Nat.le_refl _, Or.inl rfl, fun h => h, fun b _ _ => rfl, ?_, fun h => by simpa using h⟩
  intro h blk hm
  simp only [freshReg_blocks] at hm
  rw [freshReg_nextBlock]
  exact h blk hm

theorem Evolves.appendBB (g : S) (fn nm : String) :
    Evolves g (g.appendBasicBlock fn nm).2 := by
  refine ⟨by simp, Or.inl (by simp), ?_, ?_, ?_, ?_⟩
  · intro h
    simp only [appendBB_cursor, appendBB_nextBlock]
    exact Nat.lt_succ_of_lt h
  · intro b hb _
    exact getBlock_appendBB_ne g fn nm (Nat.ne_of_lt hb)
  · intro h blk hm
    simp only [appendBB_blocks, List.mem_append, List.mem_singleton] at hm
    rw [appendBB_nextBlock]
    rcases hm with hm | hm
    · exact Nat.lt_succ_of_lt (h blk hm)
    · subst hm; exact Nat.lt_succ_self _
  · intro h
    rw [appendBB_cursor, getBlock_appendBB_isSome g fn nm h]
    exact h

end GoRs

namespace GoRs

/-- Reposition to a block created during the step: the evolution relation is
maintained. -/
theorem Evolves.stepPosition {base h : S} (e : Evolves base h) {b : Nat}
    (hb : base.nextBlock ≤ b) (hb2 : b < h.nextBlock)
    (hex : (h.getBlock b).isSome) : Evolves base (h.position b) := by
  obtain ⟨a, _, _, d, e5, _⟩ := e
  refine ⟨a, Or.inr (by simpa using hb), fun _ => by simpa using hb2, ?_, e5, ?_⟩
  · intro b' hb' hbc'
    rw [position_getBlock]
    exact d b' hb' hbc'
  · intro _
    simpa using hex

/-- An existing block lookup survives an emit. -/
theorem getBlock_emit_isSome {g : S} {b : Nat} (i : Instr)
    (h : (g.getBlock b).isSome) : ((g.emit i).getBlock b).isSome := by
  rw [getBlock_emit]
  simpa using h

/-- An existing block lookup survives an append. -/
theorem getBlock_appendBB_isSome' {g : S} {b : Nat} (fn nm : String)
    (h : (g.getBlock b).isSome) :
    ((g.appendBasicBlock fn nm).2.getBlock b).isSome := by
  rw [getBlock_appendBB_isSome g fn nm h]
  exact h

theorem evolves_genLiteral {g : S} {t : Ty} {v : String} {val : Value} {g' : S}
    (h : genLiteral g t v = .ok (val, g')) : Evolves g g' := by
  cases t with
  | int =>
    cases hp : parseI64 v with
    | none => rw [genLiteral] at h; simp [hp] at h
    | some n =>
      rw [genLiteral] at h
      simp [hp] at h
      rw [← h.2]
      exact Evolves.refl g
  | bool =>
    cases hp : parseU64 v with
    | none => rw [genLiteral] at h; simp [hp] at h
    | some n =>
      rw [genLiteral] at h
      simp [hp] at h
      rw [← h.2]
      exact Evolves.refl g
  | float32 =>
    rw [genLiteral] at h
    simp at h
    rw [← h.2]
    exact Evolves.refl g
  | float64 =>
    rw [genLiteral] at h
    simp at h
    rw [← h.2]
    exact Evolves.refl g
  | goString =>
    rw [genLiteral] at h
    simp at h
    rw [← h.2]
    exact (Evolves.freshReg g).trans (Evolves.emit _ _)

theorem evolves_genVarRef {g : S} {nm : String} {val : Value} {g' : S}
    (h : genVarRef g nm = .ok (val, g')) : Evolves g g' := by
  rw [genVarRef] at h
  cases hf : g.symtab.find? (fun p => p.1 == nm) with
  | none => simp [hf] at h
  | some pr =>
    simp [hf] at h
    rw [← h.2]
    exact (Evolves.freshReg g).trans (Evolves.emit _ _)


/-- Exact shape of the `Div` arm of the integer/integer case of `gen_binop`:
the zero test, the conditional branch (zero path to the trap block), the trap
block's panic call and `unreachable`, and the division in the continuation
block, which becomes the cursor. -/
theorem genBinopVals_div_eq (g : S) (l r : Expression) (lv rv : Value)
    (wl wr : Nat) (parent : String) (sigFn : FnSig)
    (hlt : lv.ty = .int wl) (hrt : rv.ty = .int wr)
    (hcf : g.currentFunction = some parent)
    (hgp : g.getFunction "__gopanic" = some sigFn) :
    genBinopVals g .div l r lv rv =
      .ok (Value.reg lv.ty (g.nextReg + 3),
        (((((((((g.freshReg.2.emit (.icmp .ne g.nextReg rv (Value.const (.int 64) 0) "is_not_div_by_zero")).appendBasicBlock parent "panic_bb").2.appendBasicBlock parent "cont_bb").2.emit (.condBr (Value.reg (.int 1) g.nextReg) (g.nextBlock + 1) g.nextBlock)).position g.nextBlock).freshReg.2.emit (.globalStr (g.nextReg + 1) ERR_DIV_BY_ZERO "div_by_zero")).freshReg.2.emit (.callInstr (g.nextReg + 2) "__gopanic" [Value.reg (.ptr (.int 8)) (g.nextReg + 1)] "panic")).emit .unreachable).position (g.nextBlock + 1)).freshReg.2.emit (.intSDiv (g.nextReg + 3) lv rv "divtmp")) := by
  rw [genBinopVals]
  simp [hlt, hrt, hcf, hgp]

/-- The division diamond only evolves the state in the permitted way. -/
theorem evolves_divChain (g : S) (lv rv : Value) (parent : String) :
    Evolves g ((((((((((g.freshReg.2.emit (.icmp .ne g.nextReg rv (Value.const (.int 64) 0) "is_not_div_by_zero")).appendBasicBlock parent "panic_bb").2.appendBasicBlock parent "cont_bb").2.emit (.condBr (Value.reg (.int 1) g.nextReg) (g.nextBlock + 1) g.nextBlock)).position g.nextBlock).freshReg.2.emit (.globalStr (g.nextReg + 1) ERR_DIV_BY_ZERO "div_by_zero")).freshReg.2.emit (.callInstr (g.nextReg + 2) "__gopanic" [Value.reg (.ptr (.int 8)) (g.nextReg + 1)] "panic")).emit .unreachable).position (g.nextBlock + 1)).freshReg.2.emit (.intSDiv (g.nextReg + 3) lv rv "divtmp")) := by
  have e1 : Evolves g (g.freshReg.2.emit (.icmp .ne g.nextReg rv (Value.const (.int 64) 0) "is_not_div_by_zero")) := (Evolves.freshReg g).trans (Evolves.emit _ _)
  have e2 : Evolves g (((g.freshReg.2.emit (.icmp .ne g.nextReg rv (Value.const (.int 64) 0) "is_not_div_by_zero")).appendBasicBlock parent "panic_bb").2) := e1.trans (Evolves.appendBB _ _ _)
  have e3 : Evolves g ((((g.freshReg.2.emit (.icmp .ne g.nextReg rv (Value.const (.int 64) 0) "is_not_div_by_zero")).appendBasicBlock parent "panic_bb").2.appendBasicBlock parent "cont_bb").2) := e2.trans (Evolves.appendBB _ _ _)
  have e4 : Evolves g ((((g.freshReg.2.emit (.icmp .ne g.nextReg rv (Value.const (.int 64) 0) "is_not_div_by_zero")).appendBasicBlock parent "panic_bb").2.appendBasicBlock parent "cont_bb").2.emit (.condBr (Value.reg (.int 1) g.nextReg) (g.nextBlock + 1) g.nextBlock)) := e3.trans (Evolves.emit _ _)
  have hsome1 : (((((g.freshReg.2.emit (.icmp .ne g.nextReg rv (Value.const (.int 64) 0) "is_not_div_by_zero")).appendBasicBlock parent "panic_bb").2.appendBasicBlock parent "cont_bb").2.emit (.condBr (Value.reg (.int 1) g.nextReg) (g.nextBlock + 1) g.nextBlock)).getBlock g.nextBlock).isSome := by
    apply getBlock_emit_isSome
    apply getBlock_appendBB_isSome'
    have h0 := getBlock_appendBB_self_isSome (g.freshReg.2.emit (.icmp .ne g.nextReg rv (Value.const (.int 64) 0) "is_not_div_by_zero")) parent "panic_bb"
    simpa using h0
  have e5 : Evolves g (((((g.freshReg.2.emit (.icmp .ne g.nextReg rv (Value.const (.int 64) 0) "is_not_div_by_zero")).appendBasicBlock parent "panic_bb").2.appendBasicBlock parent "cont_bb").2.emit (.condBr (Value.reg (.int 1) g.nextReg) (g.nextBlock + 1) g.nextBlock)).position g.nextBlock) :=
    e4.stepPosition (Nat.le_refl _)
      (by simp only [emit_nextBlock, appendBB_nextBlock, freshReg_nextBlock]; omega) hsome1
  have e6 : Evolves g ((((((g.freshReg.2.emit (.icmp .ne g.nextReg rv (Value.const (.int 64) 0) "is_not_div_by_zero")).appendBasicBlock parent "panic_bb").2.appendBasicBlock parent "cont_bb").2.emit (.condBr (Value.reg (.int 1) g.nextReg) (g.nextBlock + 1) g.nextBlock)).position g.nextBlock).freshReg.2.emit (.globalStr (g.nextReg + 1) ERR_DIV_BY_ZERO "div_by_zero")) := (e5.trans (Evolves.freshReg _)).trans (Evolves.emit _ _)
  have e7 : Evolves g (((((((g.freshReg.2.emit (.icmp .ne g.nextReg rv (Value.const (.int 64) 0) "is_not_div_by_zero")).appendBasicBlock parent "panic_bb").2.appendBasicBlock parent "cont_bb").2.emit (.condBr (Value.reg (.int 1) g.nextReg) (g.nextBlock + 1) g.nextBlock)).position g.nextBlock).freshReg.2.emit (.globalStr (g.nextReg + 1) ERR_DIV_BY_ZERO "div_by_zero")).freshReg.2.emit (.callInstr (g.nextReg + 2) "__gopanic" [Value.reg (.ptr (.int 8)) (g.nextReg + 1)] "panic")) := (e6.trans (Evolves.freshReg _)).trans (Evolves.emit _ _)
  have e8 : Evolves g ((((((((g.freshReg.2.emit (.icmp .ne g.nextReg rv (Value.const (.int 64) 0) "is_not_div_by_zero")).appendBasicBlock parent "panic_bb").2.appendBasicBlock parent "cont_bb").2.emit (.condBr (Value.reg (.int 1) g.nextReg) (g.nextBlock + 1) g.nextBlock)).position g.nextBlock).freshReg.2.emit (.globalStr (g.nextReg + 1) ERR_DIV_BY_ZERO "div_by_zero")).freshReg.2.emit (.callInstr (g.nextReg + 2) "__gopanic" [Value.reg (.ptr (.int 8)) (g.nextReg + 1)] "panic")).emit .unreachable) := e7.trans (Evolves.emit _ _)
  have hsome2 : (((((((((g.freshReg.2.emit (.icmp .ne g.nextReg rv (Value.const (.int 64) 0) "is_not_div_by_zero")).appendBasicBlock parent "panic_bb").2.appendBasicBlock parent "cont_bb").2.emit (.condBr (Value.reg (.int 1) g.nextReg) (g.nextBlock + 1) g.nextBlock)).position g.nextBlock).freshReg.2.emit (.globalStr (g.nextReg + 1) ERR_DIV_BY_ZERO "div_by_zero")).freshReg.2.emit (.callInstr (g.nextReg + 2) "__gopanic" [Value.reg (.ptr (.int 8)) (g.nextReg + 1)] "panic")).emit .unreachable).getBlock (g.nextBlock + 1)).isSome := by
    apply getBlock_emit_isSome
    apply getBlock_emit_isSome
    rw [freshReg_getBlock]
    apply getBlock_emit_isSome
    rw [freshReg_getBlock, position_getBlock]
    apply getBlock_emit_isSome
    have h0 := getBlock_appendBB_self_isSome (((g.freshReg.2.emit (.icmp .ne g.nextReg rv (Value.const (.int 64) 0) "is_not_div_by_zero")).appendBasicBlock parent "panic_bb").2) parent "cont_bb"
    simpa using h0
  have e9 : Evolves g (((((((((g.freshReg.2.emit (.icmp .ne g.nextReg rv (Value.const (.int 64) 0) "is_not_div_by_zero")).appendBasicBlock parent "panic_bb").2.appendBasicBlock parent "cont_bb").2.emit (.condBr (Value.reg (.int 1) g.nextReg) (g.nextBlock + 1) g.nextBlock)).position g.nextBlock).freshReg.2.emit (.globalStr (g.nextReg + 1) ERR_DIV_BY_ZERO "div_by_zero")).freshReg.2.emit (.callInstr (g.nextReg + 2) "__gopanic" [Value.reg (.ptr (.int 8)) (g.nextReg + 1)] "panic")).emit .unreachable).position (g.nextBlock + 1)) :=
    e8.stepPosition (Nat.le_succ _)
      (by simp only [emit_nextBlock, appendBB_nextBlock, freshReg_nextBlock,
            position_nextBlock]; omega) hsome2
  exact (e9.trans (Evolves.freshReg _)).trans (Evolves.emit _ _)

/-- A successful `gen_binop` dispatch only evolves the state in the
permitted way. -/
theorem evolves_genBinopVals {g : S} {op : BinaryOp} {left right : Expression}
    {lv rv : Value} {val : Value} {g' : S}
    (h : genBinopVals g op left right lv rv = .ok (val, g')) : Evolves g g' := by
  cases hlt : lv.ty with
  | float wl =>
    cases hrt : rv.ty with
    | float wr =>
      rw [genBinopVals.eq_def] at h
      simp only [hlt, hrt] at h
      cases hg1 : left.getType with
      | none => simp [hg1] at h
      | some t1 =>
        cases hg2 : right.getType with
        | none => simp [hg1, hg2] at h
        | some t2 =>
          simp only [hg1, hg2] at h
          by_cases ht : t1 = t2
          · subst ht
            simp only [ne_eq, not_true_eq_false, if_false, ite_false, reduceIte] at h
            cases op <;> simp at h <;> rw [← h.2] <;>
              exact (Evolves.freshReg g).trans (Evolves.emit _ _)
          · simp [ht] at h
    | int wr => rw [genBinopVals.eq_def] at h; simp [hlt, hrt] at h
    | ptr p => rw [genBinopVals.eq_def] at h; simp [hlt, hrt] at h
  | ptr p =>
    rw [genBinopVals.eq_def] at h
    cases hrt : rv.ty <;> simp [hlt, hrt] at h
  | int wl =>
    cases hrt : rv.ty with
    | float wr => rw [genBinopVals.eq_def] at h; simp [hlt, hrt] at h
    | ptr p => rw [genBinopVals.eq_def] at h; simp [hlt, hrt] at h
    | int wr =>
      cases op with
      | div =>
        cases hcf : g.currentFunction with
        | none => rw [genBinopVals.eq_def] at h; simp [hlt, hrt, hcf] at h
        | some parent =>
          cases hgp : g.getFunction "__gopanic" with
          | none => rw [genBinopVals.eq_def] at h; simp [hlt, hrt, hcf, hgp] at h
          | some sigFn =>
            rw [genBinopVals_div_eq g left right lv rv wl wr parent sigFn hlt hrt hcf hgp] at h
            rw [Except.ok.injEq, Prod.mk.injEq] at h
            rw [← h.2]
            exact evolves_divChain g lv rv parent
      | add =>
        rw [genBinopVals.eq_def] at h; simp [hlt, hrt] at h; rw [← h.2]
        exact (Evolves.freshReg g).trans (Evolves.emit _ _)
      | sub =>
        rw [genBinopVals.eq_def] at h; simp [hlt, hrt] at h; rw [← h.2]
        exact (Evolves.freshReg g).trans (Evolves.emit _ _)
      | mul =>
        rw [genBinopVals.eq_def] at h; simp [hlt, hrt] at h; rw [← h.2]
        exact (Evolves.freshReg g).trans (Evolves.emit _ _)
      | eq =>
        rw [genBinopVals.eq_def] at h; simp [hlt, hrt] at h; rw [← h.2]
        exact (Evolves.freshReg g).trans (Evolves.emit _ _)
      | neq =>
        rw [genBinopVals.eq_def] at h; simp [hlt, hrt] at h; rw [← h.2]
        exact (Evolves.freshReg g).trans (Evolves.emit _ _)
      | ge =>
        rw [genBinopVals.eq_def] at h; simp [hlt, hrt] at h; rw [← h.2]
        exact (Evolves.freshReg g).trans (Evolves.emit _ _)
      | le =>
        rw [genBinopVals.eq_def] at h; simp [hlt, hrt] at h; rw [← h.2]
        exact (Evolves.freshReg g).trans (Evolves.emit _ _)
      | geq =>
        rw [genBinopVals.eq_def] at h; simp [hlt, hrt] at h; rw [← h.2]
        exact (Evolves.freshReg g).trans (Evolves.emit _ _)
      | leq =>
        rw [genBinopVals.eq_def] at h; simp [hlt, hrt] at h; rw [← h.2]
        exact (Evolves.freshReg g).trans (Evolves.emit _ _)



theorem EnvPres.reflEnv (g : S) : EnvPres g g := ⟨rfl, rfl, rfl⟩

theorem EnvPres.transEnv {g1 g2 g3 : S} (h12 : EnvPres g1 g2) (h23 : EnvPres g2 g3) :
    EnvPres g1 g3 :=
  ⟨h23.1.trans h12.1, h23.2.1.trans h12.2.1, h23.2.2.trans h12.2.2⟩

theorem envPres_genLiteral {g : S} {t : Ty} {v : String} {val : Value} {g' : S}
    (h : genLiteral g t v = .ok (val, g')) : EnvPres g g' := by
  cases t with
  | int =>
    cases hp : parseI64 v with
    | none => rw [genLiteral] at h; simp [hp] at h
    | some n => rw [genLiteral] at h; simp [hp] at h; rw [← h.2]; exact EnvPres.reflEnv g
  | bool =>
    cases hp : parseU64 v with
    | none => rw [genLiteral] at h; simp [hp] at h
    | some n => rw [genLiteral] at h; simp [hp] at h; rw [← h.2]; exact EnvPres.reflEnv g
  | float32 => rw [genLiteral] at h; simp at h; rw [← h.2]; exact EnvPres.reflEnv g
  | float64 => rw [genLiteral] at h; simp at h; rw [← h.2]; exact EnvPres.reflEnv g
  | goString =>
    rw [genLiteral] at h; simp at h; rw [← h.2]
    exact ⟨by simp, by simp, by simp⟩

theorem envPres_genVarRef {g : S} {nm : String} {val : Value} {g' : S}
    (h : genVarRef g nm = .ok (val, g')) : EnvPres g g' := by
  rw [genVarRef] at h
  cases hf : g.symtab.find? (fun p => p.1 == nm) with
  | none => simp [hf] at h
  | some pr =>
    simp [hf] at h
    rw [← h.2]
    exact ⟨by simp, by simp, by simp⟩

theorem envPres_genBinopVals {g : S} {op : BinaryOp} {left right : Expression}
    {lv rv : Value} {val : Value} {g' : S}
    (h : genBinopVals g op left right lv rv = .ok (val, g')) : EnvPres g g' := by
  cases hlt : lv.ty with
  | float wl =>
    cases hrt : rv.ty with
    | float wr =>
      rw [genBinopVals.eq_def] at h
      simp only [hlt, hrt] at h
      cases hg1 : left.getType with
      | none => simp [hg1] at h
      | some t1 =>
        cases hg2 : right.getType with
        | none => simp [hg1, hg2] at h
        | some t2 =>
          simp only [hg1, hg2] at h
          by_cases ht : t1 = t2
          · subst ht
            simp only [ne_eq, not_true_eq_false, if_false, ite_false, reduceIte] at h
            cases op <;> simp at h <;> rw [← h.2] <;> exact ⟨by simp, by simp, by simp⟩
          · simp [ht] at h
    | int wr => rw [genBinopVals.eq_def] at h; simp [hlt, hrt] at h
    | ptr p => rw [genBinopVals.eq_def] at h; simp [hlt, hrt] at h
  | ptr p =>
    rw [genBinopVals.eq_def] at h
    cases hrt : rv.ty <;> simp [hlt, hrt] at h
  | int wl =>
    cases hrt : rv.ty with
    | float wr => rw [genBinopVals.eq_def] at h; simp [hlt, hrt] at h
    | ptr p => rw [genBinopVals.eq_def] at h; simp [hlt, hrt] at h
    | int wr =>
      cases op with
      | div =>
        cases hcf : g.currentFunction with
        | none => rw [genBinopVals.eq_def] at h; simp [hlt, hrt, hcf] at h
        | some parent =>
          cases hgp : g.getFunction "__gopanic" with
          | none => rw [genBinopVals.eq_def] at h; simp [hlt, hrt, hcf, hgp] at h
          | some sigFn =>
            rw [genBinopVals_div_eq g left right lv rv wl wr parent sigFn hlt hrt hcf hgp] at h
            rw [Except.ok.injEq, Prod.mk.injEq] at h
            rw [← h.2]
            exact ⟨by simp, by simp, by simp⟩
      | add =>
        rw [genBinopVals.eq_def] at h; simp [hlt, hrt] at h; rw [← h.2]
        exact ⟨by simp, by simp, by simp⟩
      | sub =>
        rw [genBinopVals.eq_def] at h; simp [hlt, hrt] at h; rw [← h.2]
        exact ⟨by simp, by simp, by simp⟩
      | mul =>
        rw [genBinopVals.eq_def] at h; simp [hlt, hrt] at h; rw [← h.2]
        exact ⟨by simp, by simp, by simp⟩
      | eq =>
        rw [genBinopVals.eq_def] at h; simp [hlt, hrt] at h; rw [← h.2]
        exact ⟨by simp, by simp, by simp⟩
      | neq =>
        rw [genBinopVals.eq_def] at h; simp [hlt, hrt] at h; rw [← h.2]
        exact ⟨by simp, by simp, by simp⟩
      | ge =>
        rw [genBinopVals.eq_def] at h; simp [hlt, hrt] at h; rw [← h.2]
        exact ⟨by simp, by simp, by simp⟩
      | le =>
        rw [genBinopVals.eq_def] at h; simp [hlt, hrt] at h; rw [← h.2]
        exact ⟨by simp, by simp, by simp⟩
      | geq =>
        rw [genBinopVals.eq_def] at h; simp [hlt, hrt] at h; rw [← h.2]
        exact ⟨by simp, by simp, by simp⟩
      | leq =>
        rw [genBinopVals.eq_def] at h; simp [hlt, hrt] at h; rw [← h.2]
        exact ⟨by simp, by simp, by simp⟩

theorem bindOk {α β : Type} (a : α) (f : α → Except GenErr β) :
    (Except.ok a >>= f) = f a := rfl

theorem bindError {α β : Type} (e : GenErr) (f : α → Except GenErr β) :
    ((Except.error e : Except GenErr α) >>= f) = Except.error e := rfl

/-- A successful expression (or argument-list) generation evolves the state
only in the permitted way and leaves the environment untouched. -/
theorem genExpr_ok_shape :
    (∀ (g : S) (e : Expression), ∀ v g', genExpr g e = .ok (v, g') →
      Evolves g g' ∧ EnvPres g g') ∧
    (∀ (g : S) (args : List Expression), ∀ vs g', genArgs g args = .ok (vs, g') →
      Evolves g g' ∧ EnvPres g g') := by
  refine genExpr.mutual_induct _ _ ?_ ?_ ?_ ?_ ?_ ?_ ?_
  · intro g t v val g' h
    rw [genExpr] at h
    exact ⟨evolves_genLiteral h, envPres_genLiteral h⟩
  · intro g t nm val g' h
    rw [genExpr] at h
    exact ⟨evolves_genVarRef h, envPres_genVarRef h⟩
  · intro g t op l r ih1 ih2 val g' h
    rw [genExpr_binaryOp, genBinop] at h
    cases hl : genExpr g l with
    | error e => simp only [hl, bindError] at h; simp at h
    | ok p1 =>
      obtain ⟨lv, g1⟩ := p1
      simp only [hl, bindOk] at h
      cases hr : genExpr g1 r with
      | error e => simp only [hr, bindError] at h; simp at h
      | ok p2 =>
        obtain ⟨rv, g2⟩ := p2
        simp only [hr, bindOk] at h
        obtain ⟨e1, p1⟩ := ih1 lv g1 hl
        obtain ⟨e2, p2⟩ := ih2 g1 rv g2 hr
        exact ⟨(e1.trans e2).trans (evolves_genBinopVals h),
               ((p1.transEnv p2).transEnv (envPres_genBinopVals h))⟩
  · intro g t f args hnone val g' h
    rw [genExpr_call, genCall] at h
    simp only [hnone] at h
    simp at h
  · intro g t f args sigFn hsome ih val g' h
    rw [genExpr_call, genCall] at h
    simp only [hsome] at h
    cases hargs : genArgs g args with
    | error e => simp only [hargs, bindError] at h; simp at h
    | ok p =>
      obtain ⟨vs, g1⟩ := p
      simp only [hargs, bindOk] at h
      obtain ⟨e1, p1⟩ := ih vs g1 hargs
      cases hret : sigFn.retTy with
      | none =>
        simp only [hret] at h
        simp at h
        rw [← h.2]
        exact ⟨e1.trans ((Evolves.freshReg _).trans (Evolves.emit _ _)),
               p1.transEnv ⟨by simp, by simp, by simp⟩⟩
      | some rt =>
        simp only [hret] at h
        simp at h
        rw [← h.2]
        exact ⟨e1.trans ((Evolves.freshReg _).trans (Evolves.emit _ _)),
               p1.transEnv ⟨by simp, by simp, by simp⟩⟩
  · intro g vs g' h
    rw [genArgs] at h
    simp at h
    rw [← h.2]
    exact ⟨Evolves.refl g, EnvPres.reflEnv g⟩
  · intro g a rest ih1 ih2 vs g' h
    rw [genArgs] at h
    cases ha : genExpr g a with
    | error e => simp only [ha, bindError] at h; simp at h
    | ok p1 =>
      obtain ⟨v1, g1⟩ := p1
      simp only [ha, bindOk] at h
      cases hrest : genArgs g1 rest with
      | error e => simp only [hrest, bindError] at h; simp at h
      | ok p2 =>
        obtain ⟨vrest, g2⟩ := p2
        simp only [hrest, bindOk] at h
        simp at h
        rw [← h.2]
        obtain ⟨e1, p1⟩ := ih1 v1 g1 ha
        obtain ⟨e2, p2⟩ := ih2 g1 vrest g2 hrest
        exact ⟨e1.trans e2, p1.transEnv p2⟩

/-- Inversion of a successful `gen_if`: names every intermediate state of
the three-block protocol and the final state. -/
theorem genIf_ok_inversion {g : S} {cond : Expression} {thenB elseB : List Statement}
    {g' : S} (h : genIf g cond thenB elseB = .ok g') :
    ∃ (parent : String) (cv : Value) (w : Nat) (g1 gt ge : S),
      g.currentFunction = some parent ∧
      genExpr g cond = .ok (cv, g1) ∧
      cv.ty = .int w ∧
      genBlock (((((g1.appendBasicBlock parent "then_bb").2.appendBasicBlock parent "else_bb").2.appendBasicBlock parent "cont_bb").2.emit (.condBr cv g1.nextBlock (g1.nextBlock + 1))).position g1.nextBlock) thenB = .ok gt ∧
      genBlock ((gt.emit (.br (g1.nextBlock + 2))).position (g1.nextBlock + 1)) elseB = .ok ge ∧
      g' = (ge.emit (.br (g1.nextBlock + 2))).position (g1.nextBlock + 2) := by
  rw [genIf] at h
  cases hcf : g.currentFunction with
  | none => simp [hcf] at h
  | some parent =>
    simp only [hcf] at h
    cases hc : genExpr g cond with
    | error e => simp only [hc, bindError] at h; simp at h
    | ok p =>
      obtain ⟨cv, g1⟩ := p
      simp only [hc, bindOk] at h
      cases hcv : cv.ty with
      | float wf => simp only [hcv] at h; simp at h
      | ptr p => simp only [hcv] at h; simp at h
      | int w =>
        simp only [hcv, appendBB_fst, appendBB_nextBlock] at h
        cases hthen : genBlock (((((g1.appendBasicBlock parent "then_bb").2.appendBasicBlock parent "else_bb").2.appendBasicBlock parent "cont_bb").2.emit (.condBr cv g1.nextBlock (g1.nextBlock + 1))).position g1.nextBlock) thenB with
        | error e => simp only [hthen, bindError] at h; simp at h
        | ok gt =>
          simp only [hthen, bindOk] at h
          cases helse : genBlock ((gt.emit (.br (g1.nextBlock + 2))).position (g1.nextBlock + 1)) elseB with
          | error e => simp only [helse, bindError] at h; simp at h
          | ok ge =>
            simp only [helse, bindOk] at h
            injection h with h2
            exact ⟨parent, cv, w, g1, gt, ge, rfl, rfl, hcv, hthen, helse, h2.symm⟩

/-- Changing only the symbol table is a permitted evolution. -/
theorem evolves_withSymtab (g : S) (st : List (String × Value)) :
    Evolves g { g with symtab := st } :=
  ⟨Nat.le_refl _, Or.inl rfl, fun h => h, fun _ _ _ => rfl, fun h => h, fun h => h⟩

/-- A successful statement (or block) generation evolves the state only in
the permitted way. -/
theorem genStatement_ok_evolves :
    (∀ (g : S) (s : Statement), ∀ g', genStatement g s = .ok g' → Evolves g g') ∧
    (∀ (g : S) (stmts : List Statement), ∀ g', genBlock g stmts = .ok g' → Evolves g g') := by
  refine genStatement.mutual_induct _ _ ?_ ?_ ?_ ?_ ?_ ?_ ?_
  · intro g nm varType expr g' h
    rw [genStatement] at h
    cases he : genExpr g expr with
    | error e => simp only [he, bindError] at h; simp at h
    | ok p =>
      obtain ⟨rhs, g1⟩ := p
      simp only [he, bindOk] at h
      simp at h
      rw [← h]
      exact ((genExpr_ok_shape.1 g expr rhs g1 he).1.trans
        ((Evolves.freshReg _).trans ((Evolves.emit _ _).trans
          ((Evolves.emit _ _).trans (evolves_withSymtab _ _)))))
  · intro g expr g' h
    rw [genStatement] at h
    cases he : genExpr g expr with
    | error e => simp only [he, bindError] at h; simp at h
    | ok p =>
      obtain ⟨v, g1⟩ := p
      simp only [he, bindOk] at h
      simp at h
      rw [← h]
      exact (genExpr_ok_shape.1 g expr v g1 he).1.trans (Evolves.emit _ _)
  · intro g expr g' h
    rw [genStatement] at h
    cases he : genExpr g expr with
    | error e => simp only [he, bindError] at h; simp at h
    | ok p =>
      obtain ⟨v, g1⟩ := p
      simp only [he, bindOk] at h
      simp at h
      rw [← h]
      exact (genExpr_ok_shape.1 g expr v g1 he).1
  · intro g cond thenB elseB hnone g' h
    rw [genStatement_ifStmt, genIf, hnone] at h
    simp at h
  · intro g cond thenB elseB parent hsome ihThen ihElse g' h
    rw [genStatement_ifStmt] at h
    obtain ⟨parent1, cv, w, g1, gt, ge, hcf, hc, hcv, hthen, helse, rfl⟩ :=
      genIf_ok_inversion h
    have ihT : Evolves (((((g1.appendBasicBlock parent1 "then_bb").2.appendBasicBlock parent1 "else_bb").2.appendBasicBlock parent1 "cont_bb").2.emit (.condBr cv g1.nextBlock (g1.nextBlock + 1))).position g1.nextBlock) gt :=
      ihThen cv g1.nextBlock (g1.nextBlock + 1) ((((g1.appendBasicBlock parent1 "then_bb").2.appendBasicBlock parent1 "else_bb").2.appendBasicBlock parent1 "cont_bb").2) gt hthen
    have ihE : Evolves ((gt.emit (.br (g1.nextBlock + 2))).position (g1.nextBlock + 1)) ge :=
      ihElse (g1.nextBlock + 1) (g1.nextBlock + 2) gt ge helse
    obtain ⟨mono_t, cur_t, curlt_t, frame_t, fresh_t, someT⟩ := ihT
    obtain ⟨mono_e, cur_e, curlt_e, frame_e, fresh_e, someE⟩ := ihE
    have e0 : Evolves g g1 := (genExpr_ok_shape.1 g cond cv g1 hc).1
    have eA : Evolves g1 ((((g1.appendBasicBlock parent1 "then_bb").2.appendBasicBlock parent1 "else_bb").2.appendBasicBlock parent1 "cont_bb").2) :=
      ((Evolves.appendBB g1 parent1 "then_bb").trans
        (Evolves.appendBB _ _ _)).trans (Evolves.appendBB _ _ _)
    have eB : Evolves g1 ((((g1.appendBasicBlock parent1 "then_bb").2.appendBasicBlock parent1 "else_bb").2.appendBasicBlock parent1 "cont_bb").2.emit (.condBr cv g1.nextBlock (g1.nextBlock + 1))) := eA.trans (Evolves.emit _ _)
    have hsome_then : (((((g1.appendBasicBlock parent1 "then_bb").2.appendBasicBlock parent1 "else_bb").2.appendBasicBlock parent1 "cont_bb").2.emit (.condBr cv g1.nextBlock (g1.nextBlock + 1))).getBlock g1.nextBlock).isSome := by
      apply getBlock_emit_isSome
      apply getBlock_appendBB_isSome'
      apply getBlock_appendBB_isSome'
      exact getBlock_appendBB_self_isSome g1 parent1 "then_bb"
    have eC : Evolves g1 (((((g1.appendBasicBlock parent1 "then_bb").2.appendBasicBlock parent1 "else_bb").2.appendBasicBlock parent1 "cont_bb").2.emit (.condBr cv g1.nextBlock (g1.nextBlock + 1))).position g1.nextBlock) :=
      eB.stepPosition (Nat.le_refl _)
        (by simp only [emit_nextBlock, appendBB_nextBlock]; omega) hsome_then
    have eD : Evolves g1 gt := eC.trans ⟨mono_t, cur_t, curlt_t, frame_t, fresh_t, someT⟩
    have eE : Evolves g1 (gt.emit (.br (g1.nextBlock + 2))) := eD.trans (Evolves.emit _ _)
    have hsome_else_te : ((((((g1.appendBasicBlock parent1 "then_bb").2.appendBasicBlock parent1 "else_bb").2.appendBasicBlock parent1 "cont_bb").2.emit (.condBr cv g1.nextBlock (g1.nextBlock + 1))).position g1.nextBlock).getBlock (g1.nextBlock + 1)).isSome := by
      rw [position_getBlock]
      apply getBlock_emit_isSome
      apply getBlock_appendBB_isSome'
      have h0 := getBlock_appendBB_self_isSome ((g1.appendBasicBlock parent1 "then_bb").2) parent1 "else_bb"
      simpa using h0
    have hsome_else : ((gt.emit (.br (g1.nextBlock + 2))).getBlock (g1.nextBlock + 1)).isSome := by
      apply getBlock_emit_isSome
      have hfr := frame_t (g1.nextBlock + 1)
        (by simp only [position_nextBlock, emit_nextBlock, appendBB_nextBlock]; omega)
        (by simp only [position_cursor]; omega)
      rw [hfr]
      exact hsome_else_te
    have hb2_else : g1.nextBlock + 1 < (gt.emit (.br (g1.nextBlock + 2))).nextBlock := by
      have h1 := mono_t
      simp only [position_nextBlock, emit_nextBlock, appendBB_nextBlock] at h1
      simp only [emit_nextBlock]
      omega
    have eF : Evolves g1 ((gt.emit (.br (g1.nextBlock + 2))).position (g1.nextBlock + 1)) :=
      eE.stepPosition (by omega) hb2_else hsome_else
    have eG : Evolves g1 ge := eF.trans ⟨mono_e, cur_e, curlt_e, frame_e, fresh_e, someE⟩
    have eH : Evolves g1 (ge.emit (.br (g1.nextBlock + 2))) := eG.trans (Evolves.emit _ _)
    have hsome_cont_te : ((((((g1.appendBasicBlock parent1 "then_bb").2.appendBasicBlock parent1 "else_bb").2.appendBasicBlock parent1 "cont_bb").2.emit (.condBr cv g1.nextBlock (g1.nextBlock + 1))).position g1.nextBlock).getBlock (g1.nextBlock + 2)).isSome := by
      rw [position_getBlock]
      apply getBlock_emit_isSome
      have h0 := getBlock_appendBB_self_isSome (((g1.appendBasicBlock parent1 "then_bb").2.appendBasicBlock parent1 "else_bb").2) parent1 "cont_bb"
      simpa using h0
    have hsome_cont : ((ge.emit (.br (g1.nextBlock + 2))).getBlock (g1.nextBlock + 2)).isSome := by
      apply getBlock_emit_isSome
      have h1 := mono_t
      simp only [position_nextBlock, emit_nextBlock, appendBB_nextBlock] at h1
      have hfr_e := frame_e (g1.nextBlock + 2)
        (by simp only [position_nextBlock, emit_nextBlock]; omega)
        (by simp only [position_cursor]; omega)
      rw [hfr_e, position_getBlock]
      apply getBlock_emit_isSome
      have hfr_t := frame_t (g1.nextBlock + 2)
        (by simp only [position_nextBlock, emit_nextBlock, appendBB_nextBlock]; omega)
        (by simp only [position_cursor]; omega)
      rw [hfr_t]
      exact hsome_cont_te
    have hb2_cont : g1.nextBlock + 2 < (ge.emit (.br (g1.nextBlock + 2))).nextBlock := by
      have h1 := mono_t
      have h2 := mono_e
      simp only [position_nextBlock, emit_nextBlock, appendBB_nextBlock] at h1 h2
      simp only [emit_nextBlock]
      omega
    have eI : Evolves g1 ((ge.emit (.br (g1.nextBlock + 2))).position (g1.nextBlock + 2)) :=
      eH.stepPosition (by omega) hb2_cont hsome_cont
    exact e0.trans eI
  · intro g g' h
    rw [genBlock] at h
    injection h with h2
    rw [← h2]
    exact Evolves.refl g
  · intro g s rest ih1 ih2 g' h
    rw [genBlock] at h
    cases hs : genStatement g s with
    | error e => simp only [hs, bindError] at h; simp at h
    | ok g1 =>
      simp only [hs, bindOk] at h
      exact (ih1 g1 hs).trans (ih2 g1 g' h)

/-- Emitting when the cursor is at `b` appends to block `b`. -/
theorem getBlock_emit_cursor (g : S) (i : Instr) {b : Nat} (h : g.cursor = b) :
    (g.emit i).getBlock b = (g.getBlock b).map
      (fun blk => { blk with instrs := blk.instrs ++ [i] }) := by
  subst h
  exact getBlock_emit_self g i

/-- With fresh ids, the newly appended block is found at its id. -/
theorem getBlock_appendBB_at (g : S) (fn nm : String) {b : Nat}
    (h : g.nextBlock = b) (hfresh : ∀ blk ∈ g.blocks, blk.id < g.nextBlock) :
    (g.appendBasicBlock fn nm).2.getBlock b =
      some { id := b, fn := fn, nm := nm, instrs := [] } := by
  subst h
  exact getBlock_appendBB_self g fn nm hfresh

/-- C1: for an integer/integer `Div`, `gen_binop` compares the divisor with
the 64-bit integer zero, branches so that the zero path reaches a trap block
that calls the runtime `__gopanic` with the fixed division-by-zero message
and ends in `unreachable` (no branch back), while the nonzero path reaches a
continuation block holding the signed division, which becomes the cursor. -/
theorem c1_div_by_zero_guard
    (g g1 g2 : S) (l r : Expression) (lv rv : Value) (wl wr : Nat)
    (parent : String) (sigFn : FnSig) (bb0 : BBlock)
    (hl : genExpr g l = .ok (lv, g1))
    (hr : genExpr g1 r = .ok (rv, g2))
    (hlt : lv.ty = .int wl) (hrt : rv.ty = .int wr)
    (hcf : g2.currentFunction = some parent)
    (hgp : g2.getFunction "__gopanic" = some sigFn)
    (hfresh : blocksFresh g2)
    (hcur : g2.getBlock g2.cursor = some bb0) :
    ∃ gfin : S,
      genBinop g .div l r = .ok (Value.reg lv.ty (g2.nextReg + 3), gfin) ∧
      gfin.getBlock g2.cursor = some { bb0 with instrs := bb0.instrs ++
        [.icmp .ne g2.nextReg rv (Value.const (.int 64) 0) "is_not_div_by_zero",
         .condBr (Value.reg (.int 1) g2.nextReg) (g2.nextBlock + 1) g2.nextBlock] } ∧
      gfin.getBlock g2.nextBlock = some
        { id := g2.nextBlock, fn := parent, nm := "panic_bb", instrs :=
          [.globalStr (g2.nextReg + 1) ERR_DIV_BY_ZERO "div_by_zero",
           .callInstr (g2.nextReg + 2) "__gopanic"
             [Value.reg (.ptr (.int 8)) (g2.nextReg + 1)] "panic",
           .unreachable] } ∧
      gfin.getBlock (g2.nextBlock + 1) = some
        { id := g2.nextBlock + 1, fn := parent, nm := "cont_bb",
          instrs := [.intSDiv (g2.nextReg + 3) lv rv "divtmp"] } ∧
      gfin.cursor = g2.nextBlock + 1 := by
  have hclt : g2.cursor < g2.nextBlock := by
    have h1 := getBlock_id hcur
    have h2 := getBlock_mem hcur
    have := hfresh bb0 h2
    omega
  have hfresh1 : ∀ blk ∈ (g2.freshReg.2.emit (.icmp .ne g2.nextReg rv (Value.const (.int 64) 0) "is_not_div_by_zero")).blocks, blk.id < (g2.freshReg.2.emit (.icmp .ne g2.nextReg rv (Value.const (.int 64) 0) "is_not_div_by_zero")).nextBlock :=
    ((Evolves.freshReg g2).trans (Evolves.emit _ _)).2.2.2.2.1 hfresh
  have hfresh2a : ∀ blk ∈ (((g2.freshReg.2.emit (.icmp .ne g2.nextReg rv (Value.const (.int 64) 0) "is_not_div_by_zero")).appendBasicBlock parent "panic_bb").2).blocks, blk.id < (((g2.freshReg.2.emit (.icmp .ne g2.nextReg rv (Value.const (.int 64) 0) "is_not_div_by_zero")).appendBasicBlock parent "panic_bb").2).nextBlock :=
    (((Evolves.freshReg g2).trans (Evolves.emit _ _)).trans
      (Evolves.appendBB _ _ _)).2.2.2.2.1 hfresh
  refine ⟨(((((((((g2.freshReg.2.emit (.icmp .ne g2.nextReg rv (Value.const (.int 64) 0) "is_not_div_by_zero")).appendBasicBlock parent "panic_bb").2.appendBasicBlock parent "cont_bb").2.emit (.condBr (Value.reg (.int 1) g2.nextReg) (g2.nextBlock + 1) g2.nextBlock)).position g2.nextBlock).freshReg.2.emit (.globalStr (g2.nextReg + 1) ERR_DIV_BY_ZERO "div_by_zero")).freshReg.2.emit (.callInstr (g2.nextReg + 2) "__gopanic" [Value.reg (.ptr (.int 8)) (g2.nextReg + 1)] "panic")).emit .unreachable).position (g2.nextBlock + 1)).freshReg.2.emit (.intSDiv (g2.nextReg + 3) lv rv "divtmp"), ?_, ?_, ?_, ?_, rfl⟩
  · rw [genBinop]
    simp only [hl, bindOk, hr, bindOk]
    exact genBinopVals_div_eq g2 l r lv rv wl wr parent sigFn hlt hrt hcf hgp
  · rw [getBlock_emit_ne _ _ (show g2.cursor ≠ ((((((((((g2.freshReg.2.emit (.icmp .ne g2.nextReg rv (Value.const (.int 64) 0) "is_not_div_by_zero")).appendBasicBlock parent "panic_bb").2.appendBasicBlock parent "cont_bb").2.emit (.condBr (Value.reg (.int 1) g2.nextReg) (g2.nextBlock + 1) g2.nextBlock)).position g2.nextBlock).freshReg.2.emit (.globalStr (g2.nextReg + 1) ERR_DIV_BY_ZERO "div_by_zero")).freshReg.2.emit (.callInstr (g2.nextReg + 2) "__gopanic" [Value.reg (.ptr (.int 8)) (g2.nextReg + 1)] "panic")).emit .unreachable).position (g2.nextBlock + 1)).freshReg.2).cursor by simp only [position_cursor, emit_cursor, freshReg_cursor, appendBB_cursor]; omega),
        freshReg_getBlock,
        position_getBlock,
        getBlock_emit_ne _ _ (show g2.cursor ≠ (((((((g2.freshReg.2.emit (.icmp .ne g2.nextReg rv (Value.const (.int 64) 0) "is_not_div_by_zero")).appendBasicBlock parent "panic_bb").2.appendBasicBlock parent "cont_bb").2.emit (.condBr (Value.reg (.int 1) g2.nextReg) (g2.nextBlock + 1) g2.nextBlock)).position g2.nextBlock).freshReg.2.emit (.globalStr (g2.nextReg + 1) ERR_DIV_BY_ZERO "div_by_zero")).freshReg.2.emit (.callInstr (g2.nextReg + 2) "__gopanic" [Value.reg (.ptr (.int 8)) (g2.nextReg + 1)] "panic")).cursor by simp only [position_cursor, emit_cursor, freshReg_cursor, appendBB_cursor]; omega),
        getBlock_emit_ne _ _ (show g2.cursor ≠ (((((((g2.freshReg.2.emit (.icmp .ne g2.nextReg rv (Value.const (.int 64) 0) "is_not_div_by_zero")).appendBasicBlock parent "panic_bb").2.appendBasicBlock parent "cont_bb").2.emit (.condBr (Value.reg (.int 1) g2.nextReg) (g2.nextBlock + 1) g2.nextBlock)).position g2.nextBlock).freshReg.2.emit (.globalStr (g2.nextReg + 1) ERR_DIV_BY_ZERO "div_by_zero")).freshReg.2).cursor by simp only [position_cursor, emit_cursor, freshReg_cursor, appendBB_cursor]; omega),
        freshReg_getBlock,
        getBlock_emit_ne _ _ (show g2.cursor ≠ ((((((g2.freshReg.2.emit (.icmp .ne g2.nextReg rv (Value.const (.int 64) 0) "is_not_div_by_zero")).appendBasicBlock parent "panic_bb").2.appendBasicBlock parent "cont_bb").2.emit (.condBr (Value.reg (.int 1) g2.nextReg) (g2.nextBlock + 1) g2.nextBlock)).position g2.nextBlock).freshReg.2).cursor by simp only [position_cursor, emit_cursor, freshReg_cursor, appendBB_cursor]; omega),
        freshReg_getBlock,
        position_getBlock,
        getBlock_emit_cursor _ _ (show ((((g2.freshReg.2.emit (.icmp .ne g2.nextReg rv (Value.const (.int 64) 0) "is_not_div_by_zero")).appendBasicBlock parent "panic_bb").2.appendBasicBlock parent "cont_bb").2).cursor = g2.cursor by rfl),
        getBlock_appendBB_ne _ _ _ (show g2.cursor ≠ (((g2.freshReg.2.emit (.icmp .ne g2.nextReg rv (Value.const (.int 64) 0) "is_not_div_by_zero")).appendBasicBlock parent "panic_bb").2).nextBlock by simp only [emit_nextBlock, freshReg_nextBlock, appendBB_nextBlock, position_nextBlock]; omega),
        getBlock_appendBB_ne _ _ _ (show g2.cursor ≠ (g2.freshReg.2.emit (.icmp .ne g2.nextReg rv (Value.const (.int 64) 0) "is_not_div_by_zero")).nextBlock by simp only [emit_nextBlock, freshReg_nextBlock, appendBB_nextBlock, position_nextBlock]; omega),
        getBlock_emit_cursor _ _ (show (g2.freshReg.2).cursor = g2.cursor by rfl),
        freshReg_getBlock,
        hcur]
    simp
  · rw [getBlock_emit_ne _ _ (show g2.nextBlock ≠ ((((((((((g2.freshReg.2.emit (.icmp .ne g2.nextReg rv (Value.const (.int 64) 0) "is_not_div_by_zero")).appendBasicBlock parent "panic_bb").2.appendBasicBlock parent "cont_bb").2.emit (.condBr (Value.reg (.int 1) g2.nextReg) (g2.nextBlock + 1) g2.nextBlock)).position g2.nextBlock).freshReg.2.emit (.globalStr (g2.nextReg + 1) ERR_DIV_BY_ZERO "div_by_zero")).freshReg.2.emit (.callInstr (g2.nextReg + 2) "__gopanic" [Value.reg (.ptr (.int 8)) (g2.nextReg + 1)] "panic")).emit .unreachable).position (g2.nextBlock + 1)).freshReg.2).cursor by simp only [position_cursor, emit_cursor, freshReg_cursor, appendBB_cursor]; omega),
        freshReg_getBlock,
        position_getBlock,
        getBlock_emit_cursor _ _ (show (((((((g2.freshReg.2.emit (.icmp .ne g2.nextReg rv (Value.const (.int 64) 0) "is_not_div_by_zero")).appendBasicBlock parent "panic_bb").2.appendBasicBlock parent "cont_bb").2.emit (.condBr (Value.reg (.int 1) g2.nextReg) (g2.nextBlock + 1) g2.nextBlock)).position g2.nextBlock).freshReg.2.emit (.globalStr (g2.nextReg + 1) ERR_DIV_BY_ZERO "div_by_zero")).freshReg.2.emit (.callInstr (g2.nextReg + 2) "__gopanic" [Value.reg (.ptr (.int 8)) (g2.nextReg + 1)] "panic")).cursor = g2.nextBlock by rfl),
        getBlock_emit_cursor _ _ (show (((((((g2.freshReg.2.emit (.icmp .ne g2.nextReg rv (Value.const (.int 64) 0) "is_not_div_by_zero")).appendBasicBlock parent "panic_bb").2.appendBasicBlock parent "cont_bb").2.emit (.condBr (Value.reg (.int 1) g2.nextReg) (g2.nextBlock + 1) g2.nextBlock)).position g2.nextBlock).freshReg.2.emit (.globalStr (g2.nextReg + 1) ERR_DIV_BY_ZERO "div_by_zero")).freshReg.2).cursor = g2.nextBlock by rfl),
        freshReg_getBlock,
        getBlock_emit_cursor _ _ (show ((((((g2.freshReg.2.emit (.icmp .ne g2.nextReg rv (Value.const (.int 64) 0) "is_not_div_by_zero")).appendBasicBlock parent "panic_bb").2.appendBasicBlock parent "cont_bb").2.emit (.condBr (Value.reg (.int 1) g2.nextReg) (g2.nextBlock + 1) g2.nextBlock)).position g2.nextBlock).freshReg.2).cursor = g2.nextBlock by rfl),
        freshReg_getBlock,
        position_getBlock,
        getBlock_emit_ne _ _ (show g2.nextBlock ≠ ((((g2.freshReg.2.emit (.icmp .ne g2.nextReg rv (Value.const (.int 64) 0) "is_not_div_by_zero")).appendBasicBlock parent "panic_bb").2.appendBasicBlock parent "cont_bb").2).cursor by simp only [position_cursor, emit_cursor, freshReg_cursor, appendBB_cursor]; omega),
        getBlock_appendBB_ne _ _ _ (show g2.nextBlock ≠ (((g2.freshReg.2.emit (.icmp .ne g2.nextReg rv (Value.const (.int 64) 0) "is_not_div_by_zero")).appendBasicBlock parent "panic_bb").2).nextBlock by simp only [emit_nextBlock, freshReg_nextBlock, appendBB_nextBlock, position_nextBlock]; omega),
        getBlock_appendBB_at _ _ _ (show (g2.freshReg.2.emit (.icmp .ne g2.nextReg rv (Value.const (.int 64) 0) "is_not_div_by_zero")).nextBlock = g2.nextBlock by rfl) hfresh1]
    simp
  · rw [getBlock_emit_cursor _ _ (show ((((((((((g2.freshReg.2.emit (.icmp .ne g2.nextReg rv (Value.const (.int 64) 0) "is_not_div_by_zero")).appendBasicBlock parent "panic_bb").2.appendBasicBlock parent "cont_bb").2.emit (.condBr (Value.reg (.int 1) g2.nextReg) (g2.nextBlock + 1) g2.nextBlock)).position g2.nextBlock).freshReg.2.emit (.globalStr (g2.nextReg + 1) ERR_DIV_BY_ZERO "div_by_zero")).freshReg.2.emit (.callInstr (g2.nextReg + 2) "__gopanic" [Value.reg (.ptr (.int 8)) (g2.nextReg + 1)] "panic")).emit .unreachable).position (g2.nextBlock + 1)).freshReg.2).cursor = g2.nextBlock + 1 by rfl),
        freshReg_getBlock,
        position_getBlock,
        getBlock_emit_ne _ _ (show g2.nextBlock + 1 ≠ (((((((g2.freshReg.2.emit (.icmp .ne g2.nextReg rv (Value.const (.int 64) 0) "is_not_div_by_zero")).appendBasicBlock parent "panic_bb").2.appendBasicBlock parent "cont_bb").2.emit (.condBr (Value.reg (.int 1) g2.nextReg) (g2.nextBlock + 1) g2.nextBlock)).position g2.nextBlock).freshReg.2.emit (.globalStr (g2.nextReg + 1) ERR_DIV_BY_ZERO "div_by_zero")).freshReg.2.emit (.callInstr (g2.nextReg + 2) "__gopanic" [Value.reg (.ptr (.int 8)) (g2.nextReg + 1)] "panic")).cursor by simp only [position_cursor, emit_cursor, freshReg_cursor, appendBB_cursor]; omega),
        getBlock_emit_ne _ _ (show g2.nextBlock + 1 ≠ (((((((g2.freshReg.2.emit (.icmp .ne g2.nextReg rv (Value.const (.int 64) 0) "is_not_div_by_zero")).appendBasicBlock parent "panic_bb").2.appendBasicBlock parent "cont_bb").2.emit (.condBr (Value.reg (.int 1) g2.nextReg) (g2.nextBlock + 1) g2.nextBlock)).position g2.nextBlock).freshReg.2.emit (.globalStr (g2.nextReg + 1) ERR_DIV_BY_ZERO "div_by_zero")).freshReg.2).cursor by simp only [position_cursor, emit_cursor, freshReg_cursor, appendBB_cursor]; omega),
        freshReg_getBlock,
        getBlock_emit_ne _ _ (show g2.nextBlock + 1 ≠ ((((((g2.freshReg.2.emit (.icmp .ne g2.nextReg rv (Value.const (.int 64) 0) "is_not_div_by_zero")).appendBasicBlock parent "panic_bb").2.appendBasicBlock parent "cont_bb").2.emit (.condBr (Value.reg (.int 1) g2.nextReg) (g2.nextBlock + 1) g2.nextBlock)).position g2.nextBlock).freshReg.2).cursor by simp only [position_cursor, emit_cursor, freshReg_cursor, appendBB_cursor]; omega),
        freshReg_getBlock,
        position_getBlock,
        getBlock_emit_ne _ _ (show g2.nextBlock + 1 ≠ ((((g2.freshReg.2.emit (.icmp .ne g2.nextReg rv (Value.const (.int 64) 0) "is_not_div_by_zero")).appendBasicBlock parent "panic_bb").2.appendBasicBlock parent "cont_bb").2).cursor by simp only [position_cursor, emit_cursor, freshReg_cursor, appendBB_cursor]; omega),
        getBlock_appendBB_at _ _ _ (show (((g2.freshReg.2.emit (.icmp .ne g2.nextReg rv (Value.const (.int 64) 0) "is_not_div_by_zero")).appendBasicBlock parent "panic_bb").2).nextBlock = g2.nextBlock + 1 by rfl) hfresh2a]
    simp

@[simp] theorem emit_blocks_length (g : S) (i : Instr) :
    (g.emit i).blocks.length = g.blocks.length := by
  simp [S.emit]

/-- C3: an `If` statement creates exactly three new blocks (then, else,
continuation), branches on the condition to the then and else blocks,
generates each branch body followed by an unconditional branch to the
continuation block (also for an empty else-block, making the continuation
reachable from both paths), and leaves the cursor at the continuation block
so subsequent statements append there. -/
theorem c3_if_three_blocks
    (g : S) (parent : String) (cond : Expression) (thenB elseB : List Statement)
    (cv : Value) (w : Nat) (g1 gt ge : S) (bb0 : BBlock)
    (hcf : g.currentFunction = some parent)
    (hc : genExpr g cond = .ok (cv, g1))
    (hcv : cv.ty = .int w)
    (hfresh : blocksFresh g1)
    (hcur : g1.getBlock g1.cursor = some bb0)
    (hthen : genBlock (((((g1.appendBasicBlock parent "then_bb").2.appendBasicBlock parent "else_bb").2.appendBasicBlock parent "cont_bb").2.emit (.condBr cv g1.nextBlock (g1.nextBlock + 1))).position g1.nextBlock) thenB = .ok gt)
    (helse : genBlock ((gt.emit (.br (g1.nextBlock + 2))).position (g1.nextBlock + 1)) elseB = .ok ge)
    (hcondLen : g1.blocks.length = g.blocks.length)
    (hgtLen : gt.blocks.length = (((((g1.appendBasicBlock parent "then_bb").2.appendBasicBlock parent "else_bb").2.appendBasicBlock parent "cont_bb").2.emit (.condBr cv g1.nextBlock (g1.nextBlock + 1))).position g1.nextBlock).blocks.length)
    (hgeLen : ge.blocks.length = ((gt.emit (.br (g1.nextBlock + 2))).position (g1.nextBlock + 1)).blocks.length) :
    genIf g cond thenB elseB = .ok ((ge.emit (.br (g1.nextBlock + 2))).position (g1.nextBlock + 2)) ∧
    ((ge.emit (.br (g1.nextBlock + 2))).position (g1.nextBlock + 2)).blocks.length = g.blocks.length + 3 ∧
    ((ge.emit (.br (g1.nextBlock + 2))).position (g1.nextBlock + 2)).getBlock g1.cursor = some { bb0 with instrs :=
      bb0.instrs ++ [.condBr cv g1.nextBlock (g1.nextBlock + 1)] } ∧
    (∃ bbt, gt.getBlock gt.cursor = some bbt ∧
      ((ge.emit (.br (g1.nextBlock + 2))).position (g1.nextBlock + 2)).getBlock gt.cursor =
        some { bbt with instrs := bbt.instrs ++ [.br (g1.nextBlock + 2)] }) ∧
    (∃ bbe, ge.getBlock ge.cursor = some bbe ∧
      ((ge.emit (.br (g1.nextBlock + 2))).position (g1.nextBlock + 2)).getBlock ge.cursor =
        some { bbe with instrs := bbe.instrs ++ [.br (g1.nextBlock + 2)] }) ∧
    ((ge.emit (.br (g1.nextBlock + 2))).position (g1.nextBlock + 2)).cursor = g1.nextBlock + 2 := by
  have hclt : g1.cursor < g1.nextBlock := by
    have h1 := getBlock_id hcur
    have h2 := getBlock_mem hcur
    have := hfresh bb0 h2
    omega
  obtain ⟨mono_t, cur_t, curlt_t, frame_t, fresh_t, someT⟩ :=
    genStatement_ok_evolves.2 (((((g1.appendBasicBlock parent "then_bb").2.appendBasicBlock parent "else_bb").2.appendBasicBlock parent "cont_bb").2.emit (.condBr cv g1.nextBlock (g1.nextBlock + 1))).position g1.nextBlock) thenB gt hthen
  obtain ⟨mono_e, cur_e, curlt_e, frame_e, fresh_e, someE⟩ :=
    genStatement_ok_evolves.2 ((gt.emit (.br (g1.nextBlock + 2))).position (g1.nextBlock + 1)) elseB ge helse
  have hmono_t : g1.nextBlock + 3 ≤ gt.nextBlock := by
    have := mono_t
    simp only [emit_nextBlock, freshReg_nextBlock, appendBB_nextBlock, position_nextBlock] at this
    omega
  have hmono_e : gt.nextBlock ≤ ge.nextBlock := by
    have := mono_e
    simp only [emit_nextBlock, freshReg_nextBlock, appendBB_nextBlock, position_nextBlock] at this
    omega
  have hgtcur : gt.cursor = g1.nextBlock ∨ g1.nextBlock + 3 ≤ gt.cursor := by
    have := cur_t
    simp only [position_cursor, emit_cursor, freshReg_cursor, appendBB_cursor, emit_nextBlock, freshReg_nextBlock, appendBB_nextBlock, position_nextBlock] at this
    omega
  have hgecur : ge.cursor = g1.nextBlock + 1 ∨ gt.nextBlock ≤ ge.cursor := by
    have := cur_e
    simp only [position_cursor, emit_cursor, freshReg_cursor, appendBB_cursor, emit_nextBlock, freshReg_nextBlock, appendBB_nextBlock, position_nextBlock] at this
    omega
  have hgtlt : gt.cursor < gt.nextBlock := by
    have := curlt_t (by simp only [position_cursor, emit_cursor, freshReg_cursor, appendBB_cursor, emit_nextBlock, freshReg_nextBlock, appendBB_nextBlock, position_nextBlock]; omega)
    simpa using this
  have hsome_then_te : ((((((g1.appendBasicBlock parent "then_bb").2.appendBasicBlock parent "else_bb").2.appendBasicBlock parent "cont_bb").2.emit (.condBr cv g1.nextBlock (g1.nextBlock + 1))).position g1.nextBlock).getBlock (((((g1.appendBasicBlock parent "then_bb").2.appendBasicBlock parent "else_bb").2.appendBasicBlock parent "cont_bb").2.emit (.condBr cv g1.nextBlock (g1.nextBlock + 1))).position g1.nextBlock).cursor).isSome := by
    rw [position_getBlock, position_cursor]
    apply getBlock_emit_isSome
    apply getBlock_appendBB_isSome'
    apply getBlock_appendBB_isSome'
    exact getBlock_appendBB_self_isSome g1 parent "then_bb"
  obtain ⟨bbt, hbbt⟩ := Option.isSome_iff_exists.mp (someT hsome_then_te)
  have hsome_else_ee : (((gt.emit (.br (g1.nextBlock + 2))).position (g1.nextBlock + 1)).getBlock ((gt.emit (.br (g1.nextBlock + 2))).position (g1.nextBlock + 1)).cursor).isSome := by
    rw [position_getBlock, position_cursor]
    apply getBlock_emit_isSome
    have hfr := frame_t (g1.nextBlock + 1)
      (by simp only [emit_nextBlock, freshReg_nextBlock, appendBB_nextBlock, position_nextBlock]; omega)
      (by simp only [position_cursor, emit_cursor, freshReg_cursor, appendBB_cursor]; omega)
    rw [hfr, position_getBlock]
    apply getBlock_emit_isSome
    apply getBlock_appendBB_isSome'
    have h0 := getBlock_appendBB_self_isSome ((g1.appendBasicBlock parent "then_bb").2) parent "else_bb"
    simpa using h0
  obtain ⟨bbe, hbbe⟩ := Option.isSome_iff_exists.mp (someE hsome_else_ee)
  refine ⟨?_, ?_, ?_, ⟨bbt, hbbt, ?_⟩, ⟨bbe, hbbe, ?_⟩, rfl⟩
  · rw [genIf]
    simp only [hcf, hc, bindOk, hcv, appendBB_fst, appendBB_nextBlock]
    simp only [hthen, bindOk, helse, bindOk]
  · simp only [position_blocks, emit_blocks_length, hgeLen, hgtLen,
      appendBB_blocks, List.length_append, List.length_cons, List.length_nil]
    omega
  · rw [position_getBlock,
        getBlock_emit_ne _ _ (show g1.cursor ≠ ge.cursor by omega),
        frame_e g1.cursor (by simp only [emit_nextBlock, freshReg_nextBlock, appendBB_nextBlock, position_nextBlock]; omega) (by simp only [position_cursor, emit_cursor, freshReg_cursor, appendBB_cursor]; omega),
        position_getBlock,
        getBlock_emit_ne _ _ (show g1.cursor ≠ gt.cursor by omega),
        frame_t g1.cursor (by simp only [emit_nextBlock, freshReg_nextBlock, appendBB_nextBlock, position_nextBlock]; omega) (by simp only [position_cursor, emit_cursor, freshReg_cursor, appendBB_cursor]; omega),
        position_getBlock,
        getBlock_emit_cursor _ _ (show ((((g1.appendBasicBlock parent "then_bb").2.appendBasicBlock parent "else_bb").2.appendBasicBlock parent "cont_bb").2).cursor = g1.cursor by rfl),
        getBlock_appendBB_ne _ _ _ (show g1.cursor ≠ (((g1.appendBasicBlock parent "then_bb").2.appendBasicBlock parent "else_bb").2).nextBlock by simp only [emit_nextBlock, freshReg_nextBlock, appendBB_nextBlock, position_nextBlock]; omega),
        getBlock_appendBB_ne _ _ _ (show g1.cursor ≠ ((g1.appendBasicBlock parent "then_bb").2).nextBlock by simp only [emit_nextBlock, freshReg_nextBlock, appendBB_nextBlock, position_nextBlock]; omega),
        getBlock_appendBB_ne _ _ _ (show g1.cursor ≠ g1.nextBlock by omega),
        hcur]
    simp
  · rw [position_getBlock,
        getBlock_emit_ne _ _ (show gt.cursor ≠ ge.cursor by omega),
        frame_e gt.cursor (by simp only [emit_nextBlock, freshReg_nextBlock, appendBB_nextBlock, position_nextBlock]; omega) (by simp only [position_cursor, emit_cursor, freshReg_cursor, appendBB_cursor]; omega),
        position_getBlock,
        getBlock_emit_cursor _ _ (show gt.cursor = gt.cursor from rfl),
        hbbt]
    simp
  · rw [position_getBlock,
        getBlock_emit_cursor _ _ (show ge.cursor = ge.cursor from rfl),
        hbbe]
    simp

/-- C4 (counterexample to the claim as stated): a void function whose body
already ends in an explicit return still gets a no-value return appended
after it — the entry block ends `[ret 0, ret void]`. -/
theorem c4_counterexample :
    genFunction initState
      { name := "f", params := [], returnType := none,
        code := [.ret (.literal .int "0")] } =
    .ok { moduleFns := [("f", { paramTys := [], retTy := none })],
          blocks := [{ id := 1, fn := "f", nm := "entry",
                       instrs := [.retVal (Value.const (.int 64) 0), .retVoid] }],
          cursor := 1, nextReg := 1, nextBlock := 2, symtab := [],
          currentFunction := some "f" } := by decide

/-- C4 (amended): after the body's generation, `gen_function` appends a
no-value return exactly when the declared return type is absent — it does so
unconditionally, without checking whether the body already returned. -/
theorem c4_void_return_appended (g : S) (func : FuncDef) (g5 : S)
    (hbody : genBlock (bindParams func.name ({ ((g.addFunction func.name { paramTys := func.params.map (fun p => p.2.toLLVM), retTy := func.returnType.map Ty.toLLVM }).appendBasicBlock func.name "entry").2.position g.nextBlock with currentFunction := some func.name }) 0 func.params) func.code = .ok g5) :
    genFunction g func =
      if func.returnType.isNone then .ok (g5.emit .retVoid) else .ok g5 := by
  rw [genFunction]
  simp only [appendBB_fst, addFunction_nextBlock]
  simp only [hbody, bindOk]

/-- C2: when both operands of a `BinaryOp` generate float-kind values,
identical float type tags give a result of that same float type for the
arithmetic operators, while different type tags fail with the TypeMismatch
condition — no implicit promotion ever occurs. -/
theorem c2_float_width_rules
    (g g1 g2 : S) (op : BinaryOp) (l r : Expression) (lv rv : Value) (wl wr : Nat)
    (hl : genExpr g l = .ok (lv, g1))
    (hr : genExpr g1 r = .ok (rv, g2))
    (hlv : lv.ty = .float wl) (hrv : rv.ty = .float wr) :
    (∀ t1 t2, l.getType = some t1 → r.getType = some t2 → t1 ≠ t2 →
      genBinop g op l r = .error (.err ERR_TYPE_MISMATCH)) ∧
    (l.getType = some .float32 → r.getType = some .float32 → wl = 32 →
      op = .add ∨ op = .sub ∨ op = .mul ∨ op = .div →
      ∃ g3, genBinop g op l r = .ok (Value.reg (.float 32) g2.nextReg, g3)) ∧
    (l.getType = some .float64 → r.getType = some .float64 → wl = 64 →
      op = .add ∨ op = .sub ∨ op = .mul ∨ op = .div →
      ∃ g3, genBinop g op l r = .ok (Value.reg (.float 64) g2.nextReg, g3)) := by
  have hbase : genBinop g op l r = genBinopVals g2 op l r lv rv := by
    rw [genBinop]
    simp only [hl, bindOk, hr, bindOk]
  refine ⟨?_, ?_, ?_⟩
  · intro t1 t2 hg1 hg2 hne
    rw [hbase, genBinopVals.eq_def]
    simp [hlv, hrv, hg1, hg2, hne]
  · intro hg1 hg2 hw hop
    subst hw
    rw [hbase, genBinopVals.eq_def]
    rcases hop with rfl | rfl | rfl | rfl
    · exact ⟨g2.freshReg.2.emit (.floatAdd g2.nextReg lv rv "addtmp"),
        by simp [hlv, hrv, hg1, hg2]⟩
    · exact ⟨g2.freshReg.2.emit (.floatSub g2.nextReg lv rv "subtmp"),
        by simp [hlv, hrv, hg1, hg2]⟩
    · exact ⟨g2.freshReg.2.emit (.floatMul g2.nextReg lv rv "multmp"),
        by simp [hlv, hrv, hg1, hg2]⟩
    · exact ⟨g2.freshReg.2.emit (.floatDiv g2.nextReg lv rv "divtmp"),
        by simp [hlv, hrv, hg1, hg2]⟩
  · intro hg1 hg2 hw hop
    subst hw
    rw [hbase, genBinopVals.eq_def]
    rcases hop with rfl | rfl | rfl | rfl
    · exact ⟨g2.freshReg.2.emit (.floatAdd g2.nextReg lv rv "addtmp"),
        by simp [hlv, hrv, hg1, hg2]⟩
    · exact ⟨g2.freshReg.2.emit (.floatSub g2.nextReg lv rv "subtmp"),
        by simp [hlv, hrv, hg1, hg2]⟩
    · exact ⟨g2.freshReg.2.emit (.floatMul g2.nextReg lv rv "multmp"),
        by simp [hlv, hrv, hg1, hg2]⟩
    · exact ⟨g2.freshReg.2.emit (.floatDiv g2.nextReg lv rv "divtmp"),
        by simp [hlv, hrv, hg1, hg2]⟩

/-- C9: `gen_binop` dispatches on the generated value kind pair, not on the
static type tags: two integer-kind operands (whatever their widths, e.g. a
Bool paired with an Int) are lowered by the integer rules without error, and
a pairing that is neither integer/integer nor float/float fails with the
UnsupportedOperation condition. -/
theorem c9_kind_dispatch
    (g g1 g2 : S) (op : BinaryOp) (l r : Expression) (lv rv : Value)
    (hl : genExpr g l = .ok (lv, g1))
    (hr : genExpr g1 r = .ok (rv, g2)) :
    (∀ wl wr, lv.ty = .int wl → rv.ty = .int wr → op ≠ .div →
      ∃ v g3, genBinop g op l r = .ok (v, g3) ∧ v.isIntValue = true) ∧
    (∀ wl wr parent sigFn, lv.ty = .int wl → rv.ty = .int wr →
      g2.currentFunction = some parent →
      g2.getFunction "__gopanic" = some sigFn →
      ∃ v g3, genBinop g .div l r = .ok (v, g3) ∧ v.isIntValue = true) ∧
    ((lv.isIntValue && rv.isIntValue) = false →
      (lv.isFloatValue && rv.isFloatValue) = false →
      genBinop g op l r = .error (.err ERR_UNSUPPORTED_OPERATION)) := by
  have hbase : ∀ o : BinaryOp, genBinop g o l r = genBinopVals g2 o l r lv rv := by
    intro o
    rw [genBinop]
    simp only [hl, bindOk, hr, bindOk]
  refine ⟨?_, ?_, ?_⟩
  · intro wl wr hlt hrt hne
    rw [hbase, genBinopVals.eq_def]
    cases op with
    | div => exact absurd rfl hne
    | add => exact ⟨Value.reg (.int wl) g2.nextReg,
        g2.freshReg.2.emit (.intAdd g2.nextReg lv rv "addtmp"),
        by simp [hlt, hrt], by simp [Value.isIntValue, Value.ty]⟩
    | sub => exact ⟨Value.reg (.int wl) g2.nextReg,
        g2.freshReg.2.emit (.intSub g2.nextReg lv rv "subtmp"),
        by simp [hlt, hrt], by simp [Value.isIntValue, Value.ty]⟩
    | mul => exact ⟨Value.reg (.int wl) g2.nextReg,
        g2.freshReg.2.emit (.intMul g2.nextReg lv rv "multmp"),
        by simp [hlt, hrt], by simp [Value.isIntValue, Value.ty]⟩
    | eq => exact ⟨Value.reg (.int 1) g2.nextReg,
        g2.freshReg.2.emit (.icmp .eq g2.nextReg lv rv "eqtmp"),
        by simp [hlt, hrt], by simp [Value.isIntValue, Value.ty]⟩
    | neq => exact ⟨Value.reg (.int 1) g2.nextReg,
        g2.freshReg.2.emit (.icmp .ne g2.nextReg lv rv "neqtmp"),
        by simp [hlt, hrt], by simp [Value.isIntValue, Value.ty]⟩
    | ge => exact ⟨Value.reg (.int 1) g2.nextReg,
        g2.freshReg.2.emit (.icmp .sgt g2.nextReg lv rv "getmp"),
        by simp [hlt, hrt], by simp [Value.isIntValue, Value.ty]⟩
    | le => exact ⟨Value.reg (.int 1) g2.nextReg,
        g2.freshReg.2.emit (.icmp .slt g2.nextReg lv rv "letmp"),
        by simp [hlt, hrt], by simp [Value.isIntValue, Value.ty]⟩
    | geq => exact ⟨Value.reg (.int 1) g2.nextReg,
        g2.freshReg.2.emit (.icmp .sge g2.nextReg lv rv "geqtmp"),
        by simp [hlt, hrt], by simp [Value.isIntValue, Value.ty]⟩
    | leq => exact ⟨Value.reg (.int 1) g2.nextReg,
        g2.freshReg.2.emit (.icmp .sle g2.nextReg lv rv "leqtmp"),
        by simp [hlt, hrt], by simp [Value.isIntValue, Value.ty]⟩
  · intro wl wr parent sigFn hlt hrt hcf hgp
    exact ⟨Value.reg (.int wl) (g2.nextReg + 3), _,
      by rw [hbase, genBinopVals_div_eq g2 l r lv rv wl wr parent sigFn hlt hrt hcf hgp, hlt],
      by simp [Value.isIntValue, Value.ty]⟩
  · intro hii hff
    rw [hbase, genBinopVals.eq_def]
    cases hlt : lv.ty with
    | int wl =>
      cases hrt : rv.ty with
      | int wr => simp [Value.isIntValue, hlt, hrt] at hii
      | float wr => simp [hlt, hrt]
      | ptr p => simp [hlt, hrt]
    | float wl =>
      cases hrt : rv.ty with
      | int wr => simp [hlt, hrt]
      | float wr => simp [Value.isFloatValue, hlt, hrt] at hff
      | ptr p => simp [hlt, hrt]
    | ptr p =>
      cases hrt : rv.ty <;> simp [hlt, hrt]

/-- C7: `gen_call` resolves the callee by name in the module and fails with
the UndefinedFunction condition when absent; argument expressions are
generated left to right (each one threaded through the previous one's
state), the call is emitted after all argument effects, and a void callee
yields the fixed boolean-true (`i1 1`) sentinel instead of a call result. -/
theorem c7_gen_call (g : S) (f : String) (args : List Expression) :
    (g.getFunction f = none →
      genCall g f args = .error (.err ERR_UNDEFINED_FUNCTION)) ∧
    (∀ a rest, genArgs g (a :: rest) = do
      let p ← genExpr g a
      let q ← genArgs p.2 rest
      .ok (p.1 :: q.1, q.2)) ∧
    (∀ sig vs g1, g.getFunction f = some sig → genArgs g args = .ok (vs, g1) →
      genCall g f args = .ok
        ((match sig.retTy with
          | some t => Value.reg t g1.nextReg
          | none => Value.const (.int 1) 1),
         g1.freshReg.2.emit (.callInstr g1.nextReg f vs "calltmp"))) := by
  refine ⟨?_, ?_, ?_⟩
  · intro hnone
    rw [genCall]
    simp [hnone]
  · intro a rest
    rw [genArgs]
  · intro sig vs g1 hsig hargs
    rw [genCall]
    simp only [hsig, hargs, bindOk]
    cases hret : sig.retTy <;> simp [hret]

/-- Prefix functions generated successfully, then one that fails: the whole
run fails with that error, whatever comes later in the list. -/
theorem genFunctions_append_error (fs1 : List FuncDef) :
    ∀ (g g1 : S) (f : FuncDef) (fs2 : List FuncDef) (e : GenErr),
      genFunctions g fs1 = .ok g1 → genFunction g1 f = .error e →
      genFunctions g (fs1 ++ f :: fs2) = .error e := by
  induction fs1 with
  | nil =>
    intro g g1 f fs2 e h1 h2
    rw [genFunctions] at h1
    injection h1 with h1'
    subst h1'
    rw [List.nil_append, genFunctions]
    simp only [h2, bindError]
  | cons f0 rest ih =>
    intro g g1 f fs2 e h1 h2
    rw [genFunctions] at h1
    cases h0 : genFunction g f0 with
    | error e0 => simp only [h0, bindError] at h1; simp at h1
    | ok gmid =>
      simp only [h0, bindOk] at h1
      rw [List.cons_append, genFunctions]
      simp only [h0, bindOk]
      exact ih gmid g1 f fs2 e h1 h2

/-- C8: `gen_program` runs the functions in list order, and the first
failing function's error is returned for the whole program: no function
after the failing one is generated (the result does not depend on `fs2`). -/
theorem c8_program_order_abort (g : S) (pn : String) (imps : List String) :
    (∀ p : Program, genProgram g p = genFunctions g p.functions) ∧
    (∀ (f : FuncDef) (rest : List FuncDef),
      genFunctions g (f :: rest) = do
        let g1 ← genFunction g f
        genFunctions g1 rest) ∧
    (∀ (fs1 : List FuncDef) (f : FuncDef) (fs2 : List FuncDef) (g1 : S) (e : GenErr),
      genFunctions g fs1 = .ok g1 → genFunction g1 f = .error e →
      genProgram g { packageName := pn, imports := imps,
                     functions := fs1 ++ f :: fs2 } = .error e) := by
  refine ⟨fun p => rfl, fun f rest => rfl, ?_⟩
  intro fs1 f fs2 g1 e h1 h2
  rw [genProgram]
  exact genFunctions_append_error fs1 g g1 f fs2 e h1 h2

/-- C10: generating an expression never adds, removes or changes a symbol
table binding: the symbol table after `gen_expr` is the one from before. -/
theorem c10_genExpr_symtab_frame (g : S) (e : Expression) (v : Value) (g' : S)
    (h : genExpr g e = .ok (v, g')) : g'.symtab = g.symtab :=
  (genExpr_ok_shape.1 g e v g' h).2.1

/-- C6 (code of `compile_aot`, `lib.rs`): the `cargo build` runtime step
ignores the subprocess outcome entirely — a reported non-zero exit status
with text on the error stream is treated as success — and the `gcc` link
step ignores the exit status, failing only on a nonempty error stream.  This
contradicts the claim that each step fails fatally on non-zero status or
stderr output. -/
theorem c6_subprocess_outcome_ignored :
    handleCompileRuntime
      (.ok { status := 1, outData := "", errData := "cargo failed" }) = .ok () ∧
    handleLinkRuntime (.ok { status := 1, outData := "", errData := "" }) = .ok () :=
  ⟨rfl, rfl⟩

/-- C5 (code of `gen_program`/`gen_function`): the symbol table is created
once in `CodeGen::new` and never cleared between functions; the binding of
`x` made while generating the first function is still present when the
second function's generation starts, and a `Name x` in the second function
resolves to the first function's alloca — generation succeeds. -/
theorem c5_symtab_leaks_across_functions :
    ∃ gmid gfin : S,
      genFunction (addRuntime initState) { name := "first", params := [], returnType := none, code := [.assignment "x" .int (.literal .int "1")] } = .ok gmid ∧
      gmid.symtab = [("x", Value.reg (.ptr (.int 64)) 1)] ∧
      genFunction gmid { name := "second", params := [], returnType := some .int, code := [.ret (.name .int "x")] } = .ok gfin ∧
      gfin.getBlock 2 = some { id := 2, fn := "second", nm := "entry", instrs := [.load 2 (Value.reg (.ptr (.int 64)) 1) "x", .retVal (Value.reg (.int 64) 2)] } := by
  refine ⟨_, _, rfl, by decide, rfl, by decide⟩

/-- Witness for C1. -/
theorem c1_witness :
    ∃ gfin : S,
      genBinop { moduleFns := [("__gopanic", { paramTys := [.ptr (.int 8)], retTy := none })], blocks := [{ id := 1, fn := "f", nm := "entry", instrs := [] }], cursor := 1, nextReg := 1, nextBlock := 2, symtab := [], currentFunction := some "f" } .div (.literal .int "5") (.literal .int "2") =
        .ok (Value.reg (.int 64) 4, gfin) ∧ gfin.cursor = 3 := by
  obtain ⟨gfin, h1, h2, h3, h4, h5⟩ := c1_div_by_zero_guard
    { moduleFns := [("__gopanic", { paramTys := [.ptr (.int 8)], retTy := none })], blocks := [{ id := 1, fn := "f", nm := "entry", instrs := [] }], cursor := 1, nextReg := 1, nextBlock := 2, symtab := [], currentFunction := some "f" }
    { moduleFns := [("__gopanic", { paramTys := [.ptr (.int 8)], retTy := none })], blocks := [{ id := 1, fn := "f", nm := "entry", instrs := [] }], cursor := 1, nextReg := 1, nextBlock := 2, symtab := [], currentFunction := some "f" }
    { moduleFns := [("__gopanic", { paramTys := [.ptr (.int 8)], retTy := none })], blocks := [{ id := 1, fn := "f", nm := "entry", instrs := [] }], cursor := 1, nextReg := 1, nextBlock := 2, symtab := [], currentFunction := some "f" }
    (.literal .int "5") (.literal .int "2")
    (Value.const (.int 64) 5) (Value.const (.int 64) 2) 64 64 "f"
    { paramTys := [.ptr (.int 8)], retTy := none }
    { id := 1, fn := "f", nm := "entry", instrs := [] }
    rfl rfl rfl rfl rfl (by decide) (by decide) (by decide)
  exact ⟨gfin, h1, h5⟩

/-- Witness for C2. -/
theorem c2_witness :
    ∃ g3 : S,
      genBinop initState .add (.literal .float32 "1.5") (.literal .float32 "2.5") =
        .ok (Value.reg (.float 32) 1, g3) := by
  obtain ⟨g3, h⟩ := (c2_float_width_rules initState initState initState .add
    (.literal .float32 "1.5") (.literal .float32 "2.5")
    (Value.constFloat 32 "1.5") (Value.constFloat 32 "2.5") 32 32
    rfl rfl rfl rfl).2.1 rfl rfl rfl (Or.inl rfl)
  exact ⟨g3, h⟩

/-- Witness for C3: an if with empty branches over a boolean literal. -/
theorem c3_witness :
    genIf { moduleFns := [], blocks := [{ id := 1, fn := "f", nm := "entry", instrs := [] }], cursor := 1, nextReg := 1, nextBlock := 2, symtab := [], currentFunction := some "f" } (.literal .bool "1") [] [] =
      .ok { moduleFns := [], blocks := [{ id := 1, fn := "f", nm := "entry", instrs := [.condBr (Value.const (.int 1) 1) 2 3] }, { id := 2, fn := "f", nm := "then_bb", instrs := [.br 4] }, { id := 3, fn := "f", nm := "else_bb", instrs := [.br 4] }, { id := 4, fn := "f", nm := "cont_bb", instrs := [] }], cursor := 4, nextReg := 1, nextBlock := 5, symtab := [], currentFunction := some "f" } :=
  (c3_if_three_blocks
    { moduleFns := [], blocks := [{ id := 1, fn := "f", nm := "entry", instrs := [] }], cursor := 1, nextReg := 1, nextBlock := 2, symtab := [], currentFunction := some "f" }
    "f" (.literal .bool "1") [] [] (Value.const (.int 1) 1) 1
    { moduleFns := [], blocks := [{ id := 1, fn := "f", nm := "entry", instrs := [] }], cursor := 1, nextReg := 1, nextBlock := 2, symtab := [], currentFunction := some "f" }
    { moduleFns := [], blocks := [{ id := 1, fn := "f", nm := "entry", instrs := [.condBr (Value.const (.int 1) 1) 2 3] }, { id := 2, fn := "f", nm := "then_bb", instrs := [] }, { id := 3, fn := "f", nm := "else_bb", instrs := [] }, { id := 4, fn := "f", nm := "cont_bb", instrs := [] }], cursor := 2, nextReg := 1, nextBlock := 5, symtab := [], currentFunction := some "f" }
    { moduleFns := [], blocks := [{ id := 1, fn := "f", nm := "entry", instrs := [.condBr (Value.const (.int 1) 1) 2 3] }, { id := 2, fn := "f", nm := "then_bb", instrs := [.br 4] }, { id := 3, fn := "f", nm := "else_bb", instrs := [] }, { id := 4, fn := "f", nm := "cont_bb", instrs := [] }], cursor := 3, nextReg := 1, nextBlock := 5, symtab := [], currentFunction := some "f" }
    { id := 1, fn := "f", nm := "entry", instrs := [] }
    rfl rfl rfl (by decide) (by decide) (by decide) (by decide)
    rfl (by decide) (by decide)).1

/-- Witness for C4's amended theorem. -/
theorem c4_witness :
    genFunction initState { name := "f", params := [], returnType := none, code := [.ret (.literal .int "0")] } =
    .ok (S.emit { moduleFns := [("f", { paramTys := [], retTy := none })], blocks := [{ id := 1, fn := "f", nm := "entry", instrs := [.retVal (Value.const (.int 64) 0)] }], cursor := 1, nextReg := 1, nextBlock := 2, symtab := [], currentFunction := some "f" } .retVoid) :=
  c4_void_return_appended initState
    { name := "f", params := [], returnType := none, code := [.ret (.literal .int "0")] }
    { moduleFns := [("f", { paramTys := [], retTy := none })], blocks := [{ id := 1, fn := "f", nm := "entry", instrs := [.retVal (Value.const (.int 64) 0)] }], cursor := 1, nextReg := 1, nextBlock := 2, symtab := [], currentFunction := some "f" }
    (by decide)

/-- Witness for C7: a void runtime callee yields the `i1 1` sentinel. -/
theorem c7_witness :
    genCall (addRuntime initState) "__print_int" [.literal .int "7"] =
      .ok (Value.const (.int 1) 1,
        (addRuntime initState).freshReg.2.emit
          (.callInstr 1 "__print_int" [Value.const (.int 64) 7] "calltmp")) := by
  have h := (c7_gen_call (addRuntime initState) "__print_int"
    [.literal .int "7"]).2.2
    { paramTys := [.int 64], retTy := none }
    [Value.const (.int 64) 7] (addRuntime initState) (by decide) (by decide)
  exact h

/-- Witness for C8: the second function fails, the third is never reached. -/
theorem c8_witness :
    genProgram initState
      { packageName := "main", imports := [], functions := [{ name := "a", params := [], returnType := none, code := [] }, { name := "b", params := [], returnType := none, code := [.expression (.name .int "x")] }, { name := "c", params := [], returnType := none, code := [] }] } =
      .error (.err ERR_UNDEFINED_VAR) :=
  (c8_program_order_abort initState "main" []).2.2
    [{ name := "a", params := [], returnType := none, code := [] }]
    { name := "b", params := [], returnType := none, code := [.expression (.name .int "x")] }
    [{ name := "c", params := [], returnType := none, code := [] }]
    { moduleFns := [("a", { paramTys := [], retTy := none })], blocks := [{ id := 1, fn := "a", nm := "entry", instrs := [.retVoid] }], cursor := 1, nextReg := 1, nextBlock := 2, symtab := [], currentFunction := some "a" }
    (.err ERR_UNDEFINED_VAR) (by decide) (by decide)

/-- Witness for C9: a Bool operand paired with an Int operand is lowered by
the integer rules without error. -/
theorem c9_witness :
    ∃ (v : Value) (g3 : S),
      genBinop initState .add (.literal .bool "1") (.literal .int "2") =
        .ok (v, g3) ∧ v.isIntValue = true := by
  obtain ⟨v, g3, h1, h2⟩ := (c9_kind_dispatch initState initState initState .add
    (.literal .bool "1") (.literal .int "2")
    (Value.const (.int 1) 1) (Value.const (.int 64) 2) rfl rfl).1
    1 64 rfl rfl (by decide)
  exact ⟨v, g3, h1, h2⟩

/-- Witness for C10: a name reference loads a value and leaves the symbol
table unchanged. -/
theorem c10_witness :
    (S.emit (S.freshReg { moduleFns := [], blocks := [{ id := 1, fn := "f", nm := "entry", instrs := [] }], cursor := 1, nextReg := 1, nextBlock := 2, symtab := [("x", Value.reg (.ptr (.int 64)) 9)], currentFunction := some "f" }).2 (.load 1 (Value.reg (.ptr (.int 64)) 9) "x")).symtab =
    ({ moduleFns := [], blocks := [{ id := 1, fn := "f", nm := "entry", instrs := [] }], cursor := 1, nextReg := 1, nextBlock := 2, symtab := [("x", Value.reg (.ptr (.int 64)) 9)], currentFunction := some "f" } : S).symtab :=
  c10_genExpr_symtab_frame
    { moduleFns := [], blocks := [{ id := 1, fn := "f", nm := "entry", instrs := [] }], cursor := 1, nextReg := 1, nextBlock := 2, symtab := [("x", Value.reg (.ptr (.int 64)) 9)], currentFunction := some "f" }
    (.name .int "x") (Value.reg (.int 64) 1)
    (S.emit (S.freshReg { moduleFns := [], blocks := [{ id := 1, fn := "f", nm := "entry", instrs := [] }], cursor := 1, nextReg := 1, nextBlock := 2, symtab := [("x", Value.reg (.ptr (.int 64)) 9)], currentFunction := some "f" }).2 (.load 1 (Value.reg (.ptr (.int 64)) 9) "x"))
    (by decide)

end GoRs
